import Mathlib

/-!
Verification development for the `color` value-object library.

The library's core (hex / RGB / HSL codecs plus the mutable `Color` value
object) is shallowly embedded here.  JavaScript numbers are modelled as
exact rationals extended with `NaN` and the two infinities (`JSNum`);
IEEE-754 double rounding is not modelled, which is exact on all values the
theorems below touch.  Fallible functions return `Except ColorError`.

Rational arithmetic is implemented through `Rat.divInt` on numerators and
denominators (rather than `Rat.add` / `Rat.mul`, which are `irreducible`
and so invisible to kernel evaluation); bridge lemmas prove these agree
with the ordinary field operations on `ℚ`.
-/

namespace ColorLib

/-- Kernel-evaluable rational addition; agrees with `+` by `ratAdd_eq`. -/
def ratAdd (a b : ℚ) : ℚ := Rat.divInt (a.num * b.den + b.num * a.den) (a.den * b.den)

/-- Kernel-evaluable rational multiplication; agrees with `*` by `ratMul_eq`. -/
def ratMul (a b : ℚ) : ℚ := Rat.divInt (a.num * b.num) (a.den * b.den)

/-- Kernel-evaluable rational division; agrees with `/` by `ratDiv_eq`. -/
def ratDiv (a b : ℚ) : ℚ := Rat.divInt (a.num * b.den) (a.den * b.num)

/-- Kernel-evaluable rational negation; agrees with `-` by `ratNeg_eq`. -/
def ratNeg (a : ℚ) : ℚ := Rat.divInt (-a.num) a.den

/-- Kernel-evaluable rational subtraction. -/
def ratSub (a b : ℚ) : ℚ := ratAdd a (ratNeg b)

/-- Kernel-evaluable rational absolute value; agrees with `|·|` by `ratAbs_eq`. -/
def ratAbs (a : ℚ) : ℚ := Rat.divInt |a.num| a.den

theorem num_eq_mul_den (a : ℚ) : (a.num : ℚ) = a * a.den :=
  (div_eq_iff (by exact_mod_cast a.den_nz)).mp (Rat.num_div_den a)

theorem den_cast_ne_zero (a : ℚ) : ((a.den : ℚ)) ≠ 0 := by
  exact_mod_cast a.den_nz

theorem ratAdd_eq (a b : ℚ) : ratAdd a b = a + b := by
  unfold ratAdd
  rw [Rat.divInt_eq_div]
  push_cast
  rw [div_eq_iff (mul_ne_zero (den_cast_ne_zero a) (den_cast_ne_zero b))]
  rw [num_eq_mul_den a, num_eq_mul_den b]
  ring

theorem ratMul_eq (a b : ℚ) : ratMul a b = a * b := by
  unfold ratMul
  rw [Rat.divInt_eq_div]
  push_cast
  rw [div_eq_iff (mul_ne_zero (den_cast_ne_zero a) (den_cast_ne_zero b))]
  rw [num_eq_mul_den a, num_eq_mul_den b]
  ring

theorem ratNeg_eq (a : ℚ) : ratNeg a = -a := by
  unfold ratNeg
  rw [Rat.divInt_eq_div]
  push_cast
  rw [div_eq_iff (den_cast_ne_zero a), num_eq_mul_den a]
  ring

theorem ratSub_eq (a b : ℚ) : ratSub a b = a - b := by
  unfold ratSub
  rw [ratAdd_eq, ratNeg_eq, sub_eq_add_neg]

theorem ratDiv_eq (a b : ℚ) (hb : b ≠ 0) : ratDiv a b = a / b := by
  unfold ratDiv
  have hbn : (b.num : ℚ) ≠ 0 := by
    exact_mod_cast Rat.num_ne_zero.mpr hb
  rw [Rat.divInt_eq_div]
  push_cast
  rw [div_eq_div_iff (mul_ne_zero (den_cast_ne_zero a) hbn) hb]
  rw [num_eq_mul_den a, num_eq_mul_den b]
  ring

theorem ratAbs_eq (a : ℚ) : ratAbs a = |a| := by
  unfold ratAbs
  rw [Rat.divInt_eq_div]
  push_cast
  conv_rhs => rw [← Rat.num_div_den a]
  rw [abs_div, abs_of_nonneg (show (0:ℚ) ≤ (a.den : ℚ) by positivity)]

/-- Model of a JavaScript number: an exact rational, `NaN`, or an infinity. -/
inductive JSNum where
  | num (q : ℚ)
  | nan
  | inf
  | ninf
deriving DecidableEq

namespace JSNum

/-- JavaScript addition. -/
def jsAdd : JSNum → JSNum → JSNum
  | nan, _ => nan
  | _, nan => nan
  | inf, ninf => nan
  | ninf, inf => nan
  | inf, _ => inf
  | _, inf => inf
  | ninf, _ => ninf
  | _, ninf => ninf
  | num a, num b => num (ratAdd a b)

/-- JavaScript negation. -/
def jsNeg : JSNum → JSNum
  | nan => nan
  | inf => ninf
  | ninf => inf
  | num a => num (ratNeg a)

/-- JavaScript subtraction. -/
def jsSub (a b : JSNum) : JSNum := jsAdd a (jsNeg b)

/-- JavaScript multiplication. -/
def jsMul : JSNum → JSNum → JSNum
  | nan, _ => nan
  | _, nan => nan
  | num a, num b => num (ratMul a b)
  | inf, num b => if 0 < b then inf else if b < 0 then ninf else nan
  | num a, inf => if 0 < a then inf else if a < 0 then ninf else nan
  | ninf, num b => if 0 < b then ninf else if b < 0 then inf else nan
  | num a, ninf => if 0 < a then ninf else if a < 0 then inf else nan
  | inf, inf => inf
  | ninf, ninf => inf
  | inf, ninf => ninf
  | ninf, inf => ninf

/-- JavaScript division (`x / 0` is a signed infinity, `0 / 0` is `NaN`). -/
def jsDiv : JSNum → JSNum → JSNum
  | nan, _ => nan
  | _, nan => nan
  | num a, num b =>
      if b = 0 then (if 0 < a then inf else if a < 0 then ninf else nan)
      else num (ratDiv a b)
  | inf, num b => if 0 ≤ b then inf else ninf
  | ninf, num b => if 0 ≤ b then ninf else inf
  | num _, inf => num 0
  | num _, ninf => num 0
  | inf, inf => nan
  | inf, ninf => nan
  | ninf, inf => nan
  | ninf, ninf => nan

/-- JavaScript `Math.abs`. -/
def jsAbs : JSNum → JSNum
  | nan => nan
  | inf => inf
  | ninf => inf
  | num a => num (ratAbs a)

/-- JavaScript `Math.round`: round half toward positive infinity.
(`Rat.floor` is used rather than `Int.floor` so the kernel can evaluate it;
the two agree by `Rat.floor_def`.) -/
def jsRound : JSNum → JSNum
  | nan => nan
  | inf => inf
  | ninf => ninf
  | num q => num ((Rat.floor (ratAdd q (Rat.divInt 1 2)) : ℤ) : ℚ)

/-- Truncation toward zero, used by the JavaScript `%` operator. -/
def ratTrunc (q : ℚ) : ℚ :=
  if 0 ≤ q then ((Rat.floor q : ℤ) : ℚ) else ((Rat.ceil q : ℤ) : ℚ)

/-- JavaScript remainder operator `%` (sign follows the dividend). -/
def jsRem : JSNum → JSNum → JSNum
  | nan, _ => nan
  | _, nan => nan
  | inf, _ => nan
  | ninf, _ => nan
  | num a, num b => if b = 0 then nan else num (ratSub a (ratMul b (ratTrunc (ratDiv a b))))
  | num a, inf => num a
  | num a, ninf => num a

/-- JavaScript `<` as a boolean (false whenever `NaN` is involved). -/
def jsLtB : JSNum → JSNum → Bool
  | nan, _ => false
  | _, nan => false
  | num a, num b => decide (a < b)
  | ninf, ninf => false
  | ninf, _ => true
  | _, ninf => false
  | inf, _ => false
  | num _, inf => true

/-- JavaScript `>` as a boolean. -/
def jsGtB (a b : JSNum) : Bool := jsLtB b a

/-- JavaScript `>=` as a boolean (false whenever `NaN` is involved). -/
def jsGeB (a b : JSNum) : Bool :=
  if a = nan ∨ b = nan then false else !jsLtB a b

/-- JavaScript `Math.max` of two numbers. -/
def jsMax (a b : JSNum) : JSNum :=
  if a = nan ∨ b = nan then nan else if jsLtB a b then b else a

/-- JavaScript `Math.min` of two numbers. -/
def jsMin (a b : JSNum) : JSNum :=
  if a = nan ∨ b = nan then nan else if jsLtB b a then b else a

/-- JavaScript global `isNaN` on a number. -/
def jsIsNaN (a : JSNum) : Bool := a = nan

/-- JavaScript truthiness of a number (`0` and `NaN` are falsy). -/
def jsTruthy : JSNum → Bool
  | num q => decide (q ≠ 0)
  | nan => false
  | inf => true
  | ninf => true

/-- Truthiness of a possibly-`undefined` number (`undefined` is falsy). -/
def jsTruthyOpt : Option JSNum → Bool
  | some a => jsTruthy a
  | none => false

end JSNum

open JSNum

/-- Embedding of `helpers/Round.ts`:
`round(number, decimals=0) = Math.round(number * 10 ** decimals) / 10 ** decimals`.
(A second identical-in-behavior variant of the helper computes the offset as
`decimals ? 10 ** decimals : 1`; both agree since `10 ** 0 = 1`.) -/
def round (number : JSNum) (decimals : Nat) : JSNum :=
  let offset : JSNum := num (Rat.divInt ((10 : ℤ) ^ decimals) 1)
  jsDiv (jsRound (jsMul number offset)) offset

/-- Embedding of `helpers/DefaultAlpha.ts`:
`defaultAlpha(alpha?) = alpha !== undefined ? round(alpha, 2) : 1`. -/
def defaultAlpha : Option JSNum → JSNum
  | some alpha => round alpha 2
  | none => num 1

/-- The error kinds of `errors/ColorError.ts`, each carrying the offending
color string.  The static constructors' spelling-hint side computation
(`CheckSpellingErrors`) only affects message text, never the kind, and its
result is discarded by `InvalidColor` / `InvalidRGBCode` / `InvalidHSLCode`,
so it is not modelled. -/
inductive ColorError where
  | InvalidColor (color : String)
  | InvalidHexCode (color : String)
  | InvalidRGBCode (color : String)
  | InvalidHSLCode (color : String)
  | InvalidValue (color : String) (value : String)
deriving DecidableEq

instance {ε α : Type} [DecidableEq ε] [DecidableEq α] : DecidableEq (Except ε α) := fun x y =>
  match x, y with
  | .ok a, .ok b => if h : a = b then .isTrue (by rw [h]) else .isFalse (by simp [h])
  | .error a, .error b => if h : a = b then .isTrue (by rw [h]) else .isFalse (by simp [h])
  | .ok _, .error _ => .isFalse (by simp)
  | .error _, .ok _ => .isFalse (by simp)

/-! ### String helpers

JavaScript string primitives used by the library, modelled on `List Char`
(`String.data`).  `toUpperCase` / number formatting agree with JavaScript on
the ASCII, terminating-decimal values that arise in this library. -/

/-- JavaScript `string[i]`: `some` character, or `none` for `undefined`. -/
def jsCharAt (s : String) (i : Nat) : Option Char := s.data.get? i

/-- Interpolating `string[i]` into a template: the character, or the text
`"undefined"` when the index is out of range (as JavaScript renders it). -/
def jsCharStr (s : String) (i : Nat) : String :=
  match jsCharAt s i with
  | some c => String.mk [c]
  | none => "undefined"

/-- JavaScript `toUpperCase` (ASCII). -/
def strUpper (s : String) : String := String.mk (s.data.map Char.toUpper)

/-- Substring search at every suffix, for `String.prototype.includes`. -/
def strIncludesCore (pat : List Char) : List Char → Bool
  | [] => pat.isPrefixOf []
  | c :: rest => pat.isPrefixOf (c :: rest) || strIncludesCore pat rest

/-- JavaScript `String.prototype.includes`, as a substring search. -/
def strIncludes (s pat : String) : Bool := strIncludesCore pat.data s.data

/-- JavaScript `padStart(2, "0")`. -/
def padStart2 (s : String) : String :=
  if s.length < 2 then String.mk (List.replicate (2 - s.length) '0') ++ s else s

/-- Decimal digits of a natural number, most significant first (fuel-based
so the kernel can evaluate it). -/
def natDigitsAux : Nat → Nat → List Char
  | 0, _ => []
  | fuel + 1, n => if n = 0 then [] else natDigitsAux fuel (n / 10) ++ [Char.ofNat (48 + n % 10)]

/-- Decimal rendering of a natural number. -/
def natToString (n : Nat) : String :=
  if n = 0 then "0" else String.mk (natDigitsAux (n + 1) n)

/-- Decimal digits of the fractional part `q ∈ [0,1)`, stopping when the
expansion terminates (or after `fuel` digits; every value rendered by the
theorems below terminates well within the fuel). -/
def fracDigitsAux : Nat → ℚ → List Char
  | 0, _ => []
  | fuel + 1, q =>
      if q = 0 then []
      else
        let q10 := ratMul q 10
        let d := Rat.floor q10
        Char.ofNat (48 + d.toNat) :: fracDigitsAux fuel (ratSub q10 ((d : ℤ) : ℚ))

/-- JavaScript number-to-string conversion (exact on the terminating
decimals produced by this library). -/
def jsNumToString : JSNum → String
  | JSNum.nan => "NaN"
  | JSNum.inf => "Infinity"
  | JSNum.ninf => "-Infinity"
  | num q =>
      let a := ratAbs q
      let ip := (Rat.floor a).toNat
      let fr := fracDigitsAux 20 (ratSub a ((Rat.floor a : ℤ) : ℚ))
      (if q < 0 then "-" else "") ++ natToString ip ++
        (if fr.isEmpty then "" else "." ++ String.mk fr)

/-- Rendering of a possibly-`undefined` number inside a template string. -/
def jsNumOptToString : Option JSNum → String
  | some a => jsNumToString a
  | none => "undefined"

/-- Lowercase hexadecimal digits of a natural number (fuel-based). -/
def natHexDigitsAux : Nat → Nat → List Char
  | 0, _ => []
  | fuel + 1, n =>
      if n = 0 then []
      else natHexDigitsAux fuel (n / 16) ++
        [Char.ofNat (if n % 16 < 10 then 48 + n % 16 else 87 + n % 16)]

/-- Lowercase hexadecimal rendering of a natural number,
as `(n).toString(16)` produces for whole numbers. -/
def natHexLower (n : Nat) : String :=
  if n = 0 then "0" else String.mk (natHexDigitsAux (n + 1) n)

/-- Lowercase hexadecimal digits of a fractional part (fuel-based). -/
def hexFracAux : Nat → ℚ → List Char
  | 0, _ => []
  | fuel + 1, q =>
      if q = 0 then []
      else
        let q16 := ratMul q 16
        let d := Rat.floor q16
        Char.ofNat (if d.toNat < 10 then 48 + d.toNat else 87 + d.toNat) ::
          hexFracAux fuel (ratSub q16 ((d : ℤ) : ℚ))

/-- JavaScript `(x).toString(16)`.  Exact on whole numbers (the only values
the library passes to it — every call site feeds it a `Math.round` result);
for non-integers the fractional hex digits are produced up to fuel. -/
def jsToHexString : JSNum → String
  | JSNum.nan => "NaN"
  | JSNum.inf => "Infinity"
  | JSNum.ninf => "-Infinity"
  | num q =>
      let a := ratAbs q
      let ip := (Rat.floor a).toNat
      let fr := hexFracAux 20 (ratSub a ((Rat.floor a : ℤ) : ℚ))
      (if q < 0 then "-" else "") ++ natHexLower ip ++
        (if fr.isEmpty then "" else "." ++ String.mk fr)

/-! ### Hex codec (`formats/Hex.ts`) -/

/-- A hexadecimal digit, either case (the character class of `HEX_REGEX`). -/
def isHexDigitChar (c : Char) : Bool :=
  (48 ≤ c.toNat && c.toNat ≤ 57) || (97 ≤ c.toNat && c.toNat ≤ 102) ||
    (65 ≤ c.toNat && c.toNat ≤ 70)

/-- Value of a hexadecimal digit. -/
def hexVal (c : Char) : Nat :=
  if c.toNat ≤ 57 then c.toNat - 48
  else if 97 ≤ c.toNat then c.toNat - 87
  else c.toNat - 55

/-- Embedding of `stringToDecimals = (string) => parseInt(string, 16)`:
the value of the longest hex-digit prefix, `NaN` if there is none.
(`parseInt`'s whitespace/sign/`0x` handling is unreachable here — the
library only passes two-character hex-digit strings.) -/
def parseInt16 (s : String) : JSNum :=
  let ds := s.data.takeWhile isHexDigitChar
  if ds.isEmpty then JSNum.nan
  else num ((ds.foldl (fun a c => 16 * a + hexVal c) 0 : ℕ) : ℚ)

/-- Test of `HEX_REGEX = /^#([A-Fa-f0-9]{3}|[A-Fa-f0-9]{6}|[A-Fa-f0-9]{8})$/`. -/
def hexTest (s : String) : Bool :=
  match s.data with
  | c :: rest =>
      c == '#' &&
        (rest.all isHexDigitChar &&
          (rest.length == 3 || rest.length == 6 || rest.length == 8))
  | [] => false

/-- Embedding of `parseHex` from `formats/Hex.ts`. -/
def parseHex (string : String) : Except ColorError String :=
  if !hexTest string then .error (.InvalidHexCode string)
  else if string.length = 4 then
    let red := jsCharStr string 1 ++ jsCharStr string 1
    let green := jsCharStr string 2 ++ jsCharStr string 2
    let blue := jsCharStr string 3 ++ jsCharStr string 3
    let alpha :=
      match jsCharAt string 4 with
      | some c => String.mk [c] ++ String.mk [c]
      | none => "FF"
    .ok (strUpper ("#" ++ red ++ green ++ blue ++ alpha))
  else if string.length = 7 then .ok (strUpper (string ++ "FF"))
  else .ok (strUpper string)

/-- The `{red, green, blue, alpha}` record of `formats/RedGreenBlue.ts`. -/
structure RGBA where
  red : JSNum
  green : JSNum
  blue : JSNum
  alpha : JSNum
deriving DecidableEq

/-- The pure decoding step of `hexToRgb`, applied to the parsed hex string. -/
def hexDecode (hex : String) : RGBA :=
  { red := parseInt16 (jsCharStr hex 1 ++ jsCharStr hex 2)
    green := parseInt16 (jsCharStr hex 3 ++ jsCharStr hex 4)
    blue := parseInt16 (jsCharStr hex 5 ++ jsCharStr hex 6)
    alpha := round (jsDiv (parseInt16 (jsCharStr hex 7 ++ jsCharStr hex 8)) (num 255)) 2 }

/-- Embedding of `hexToRgb` from `formats/Hex.ts`. -/
def hexToRgb (string : String) : Except ColorError RGBA :=
  (parseHex string).map hexDecode

example : parseHex ("#FFF") = .ok ("#FFFFFFFF") := by decide
example : parseHex ("#fa0b") = .error (ColorError.InvalidHexCode ("#fa0b")) := by decide
example : parseHex ("#1c0000") = .ok ("#1C0000FF") := by decide
example : hexToRgb ("#00000001") =
    .ok ⟨num 0, num 0, num 0, num 0⟩ := by decide
example : hexToRgb ("#80FF0180") =
    .ok ⟨num 128, num 255, num 1, num (Rat.divInt 1 2)⟩ := by decide

/-! ### Regex shape matchers

`RGB_HEX` and `HSL_REGEX` are anchored patterns whose greedy quantifiers
never need backtracking: after every `\d{1,3}` / `[0-1](?:\.\d+)?` group the
pattern requires a token that cannot begin with a digit, so the maximal-run
parse below accepts exactly the strings the regex accepts and extracts the
same captures. -/

/-- The characters matched by the regex class `\s` (as used here). -/
def jsIsSpaceChar (c : Char) : Bool :=
  c = ' ' || c = '\t' || c = '\n' || c = '\r' || c.toNat = 11 || c.toNat = 12

/-- ASCII decimal digit, the regex class `\d`. -/
def isDigitChar (c : Char) : Bool := 48 ≤ c.toNat && c.toNat ≤ 57

/-- Consume `\s*`. -/
def takeSpaces (l : List Char) : List Char := l.dropWhile jsIsSpaceChar

/-- Consume one literal character. -/
def expectChar (c : Char) : List Char → Option (List Char)
  | x :: rest => if x = c then some rest else none
  | [] => none

/-- Consume and capture `(\d{1,3})` (greedy, with the following token never
a digit, so the maximal digit run must have length 1–3). -/
def matchDigits13 (l : List Char) : Option (List Char × List Char) :=
  let ds := l.takeWhile isDigitChar
  if ds.length = 0 || 3 < ds.length then none else some (ds, l.drop ds.length)

/-- Consume and capture `([0-1](?:\.\d+)?)`.  If a `.` follows without any
digit the optional group cannot match and only the leading digit is
captured (the anchored continuation then fails exactly as the regex does). -/
def matchAlphaNum : List Char → Option (List Char × List Char)
  | c :: rest =>
      if c = '0' || c = '1' then
        match rest with
        | '.' :: rest2 =>
            let ds := rest2.takeWhile isDigitChar
            if ds.isEmpty then some ([c], rest)
            else some (c :: '.' :: ds, rest2.drop ds.length)
        | _ => some ([c], rest)
      else none
  | [] => none

/-- Consume the optional `(?:,\s*(A))?` group.  When the next character is a
comma the group is committed (the following `\s*\)` can never start with a
comma, so skipping the group could not succeed either). -/
def matchOptAlpha : List Char → Option (Option (List Char) × List Char)
  | ',' :: l2 =>
      match matchAlphaNum (takeSpaces l2) with
      | some (a, l3) => some (some a, l3)
      | none => none
  | l => some (none, l)

/-- The shared tail `\(\s*(\d{1,3})\s*,\s*(\d{1,3})SEP\s*,\s*(\d{1,3})SEP(?:,\s*(A))?\s*\)$`
of the two patterns, where `SEP` is `%` for HSL (`percent := true`) and
empty for RGB. -/
def matchTriple (percent : Bool) (l0 : List Char) :
    Option (String × String × String × Option String) := do
  let l1 ← expectChar '(' l0
  let (d1, l2) ← matchDigits13 (takeSpaces l1)
  let l3 ← expectChar ',' (takeSpaces l2)
  let (d2, l4) ← matchDigits13 (takeSpaces l3)
  let l5 ← if percent then expectChar '%' l4 else pure l4
  let l6 ← expectChar ',' (takeSpaces l5)
  let (d3, l7) ← matchDigits13 (takeSpaces l6)
  let l8 ← if percent then expectChar '%' l7 else pure l7
  let (aOpt, l9) ← matchOptAlpha l8
  let l10 ← expectChar ')' (takeSpaces l9)
  if l10.isEmpty then pure (String.mk d1, String.mk d2, String.mk d3, aOpt.map String.mk)
  else none

/-- Matching of `RGB_HEX = /^rgba?\(...$/`, returning the four captures. -/
def rgbMatch (s : String) : Option (String × String × String × Option String) :=
  match s.data with
  | 'r' :: 'g' :: 'b' :: rest =>
      match rest with
      | 'a' :: rest2 => matchTriple false rest2
      | _ => matchTriple false rest
  | _ => none

/-- Matching of `HSL_REGEX = /^hsla?\(...%...%...$/`, returning the captures. -/
def hslMatch (s : String) : Option (String × String × String × Option String) :=
  match s.data with
  | 'h' :: 's' :: 'l' :: rest =>
      match rest with
      | 'a' :: rest2 => matchTriple true rest2
      | _ => matchTriple true rest
  | _ => none

/-- JavaScript `Number()` restricted to the shapes the regex captures can
take (`\d{1,3}` or `[0-1](?:\.\d+)?`); other shapes are unreachable. -/
def parseDecimal (s : String) : JSNum :=
  let l := s.data
  let ip := l.takeWhile isDigitChar
  let rest := l.drop ip.length
  if ip.isEmpty then JSNum.nan
  else
    match rest with
    | [] => num ((ip.foldl (fun a c => 10 * a + (c.toNat - 48)) 0 : ℕ) : ℚ)
    | '.' :: fs =>
        if fs.all isDigitChar && !fs.isEmpty then
          num (ratAdd ((ip.foldl (fun a c => 10 * a + (c.toNat - 48)) 0 : ℕ) : ℚ)
            (ratDiv ((fs.foldl (fun a c => 10 * a + (c.toNat - 48)) 0 : ℕ) : ℚ)
              (Rat.divInt ((10 : ℤ) ^ fs.length) 1)))
        else JSNum.nan
    | _ => JSNum.nan

/-- The per-capture map `(color) => (!isNaN(Number(color)) ? Number(color) : undefined)`
(`Number(undefined)` is `NaN`, so an absent capture stays `undefined`). -/
def captureToNum : Option String → Option JSNum
  | none => none
  | some s => let v := parseDecimal s; if jsIsNaN v then none else some v

/-- A possibly-`undefined` value used as a number: `undefined` behaves as
`NaN` in every numeric test the validators perform. -/
def optJs (o : Option JSNum) : JSNum := o.getD JSNum.nan

/-! ### RGB codec (`formats/RedGreenBlue.ts`) -/

/-- The `colorString` template of `validateRgb` (a truthiness test on the
optional alpha selects the `rgba` form). -/
def rgbColorString (red green blue : JSNum) (alpha : Option JSNum) : String :=
  if jsTruthyOpt alpha then
    "rgba(" ++ jsNumToString red ++ ", " ++ jsNumToString green ++ ", " ++
      jsNumToString blue ++ ", " ++ jsNumOptToString alpha ++ ")"
  else
    "rgb(" ++ jsNumToString red ++ ", " ++ jsNumToString green ++ ", " ++
      jsNumToString blue ++ ")"

/-- The per-channel test of `validateRgb`'s loop:
`isNaN(color) || color < 0 || color > 255`. -/
def badChannel (c : JSNum) : Bool :=
  jsIsNaN c || jsLtB c (num 0) || jsGtB c (num 255)

/-- The alpha test of `validateRgb` / `validateHsl`:
`isNaN(alpha) || alpha < 0 || alpha > 1` (evaluated only under the
truthiness guard `alpha && ...`). -/
def alphaOutOfRange : Option JSNum → Bool
  | some a => jsIsNaN a || jsLtB a (num 0) || jsGtB a (num 1)
  | none => false

/-- Embedding of `validateRgb` from `formats/RedGreenBlue.ts`. -/
def validateRgb (red green blue : JSNum) (alpha : Option JSNum) :
    Except ColorError RGBA :=
  let colorString := rgbColorString red green blue alpha
  if badChannel red || badChannel green || badChannel blue then
    .error (.InvalidRGBCode colorString)
  else if jsTruthyOpt alpha && alphaOutOfRange alpha then
    .error (.InvalidRGBCode colorString)
  else
    .ok ⟨jsRound red, jsRound green, jsRound blue, defaultAlpha alpha⟩

/-- Embedding of `parseRgb` from `formats/RedGreenBlue.ts` (a failed regex
match throws `InvalidRGBCode`, not `InvalidColor`). -/
def parseRgb (color : String) : Except ColorError RGBA :=
  match rgbMatch color with
  | none => .error (.InvalidRGBCode color)
  | some (rs, gs, bs, aOpt) =>
      validateRgb (optJs (captureToNum (some rs))) (optJs (captureToNum (some gs)))
        (optJs (captureToNum (some bs))) (captureToNum aOpt)

/-- The encoding step of `rgbToHex` applied to the validated channels:
`[r, g, b, Math.round(alpha*255)].map(c => c.toString(16).padStart(2,"0")).join("").toUpperCase()`
prefixed with `#`. -/
def rgbToHexCore (rgb : RGBA) : String :=
  "#" ++ strUpper (padStart2 (jsToHexString rgb.red) ++ padStart2 (jsToHexString rgb.green) ++
    padStart2 (jsToHexString rgb.blue) ++
    padStart2 (jsToHexString (jsRound (jsMul rgb.alpha (num 255)))))

/-- Embedding of `rgbToHex` from `formats/RedGreenBlue.ts`. -/
def rgbToHex (red green blue : JSNum) (alpha : Option JSNum) :
    Except ColorError String :=
  (validateRgb red green blue alpha).map rgbToHexCore

/-- The `{hue, saturation, lightness, alpha}` record of
`formats/HueSaturationLightness.ts`. -/
structure HSLA where
  hue : JSNum
  saturation : JSNum
  lightness : JSNum
  alpha : JSNum
deriving DecidableEq

/-- The conversion step of `rgbToHsl` applied to the validated channels.
JavaScript `===` on the (never-`NaN`) validated channels coincides with
equality of `JSNum` values. -/
def rgbToHslCore (rgb : RGBA) : HSLA :=
  let red := rgb.red
  let green := rgb.green
  let blue := rgb.blue
  let mx := jsMax red (jsMax green blue)
  let mn := jsMin red (jsMin green blue)
  let delta := jsSub mx mn
  let average := jsDiv (jsAdd mx mn) (num 2)
  let lightness := round (jsDiv average (num 255)) 2
  let saturation :=
    if delta = num 0 then num 0
    else round (jsDiv (jsDiv delta
      (jsSub (num 1) (jsAbs (jsSub (jsMul lightness (num 2)) (num 1))))) (num 255)) 2
  let hue0 :=
    if delta = num 0 then num 0
    else if mx = red then jsRem (jsDiv (jsSub green blue) delta) (num 6)
    else if mx = green then jsAdd (jsDiv (jsSub blue red) (jsSub mx mn)) (num 2)
    else jsAdd (jsDiv (jsSub red green) (jsSub mx mn)) (num 4)
  let hue1 := jsRound (jsMul hue0 (num 60))
  let hue2 := if jsLtB hue1 (num 0) then jsAdd hue1 (num 360) else hue1
  ⟨hue2, saturation, lightness, rgb.alpha⟩

/-- Embedding of `rgbToHsl` from `formats/RedGreenBlue.ts`. -/
def rgbToHsl (red green blue : JSNum) (alpha : Option JSNum) :
    Except ColorError HSLA :=
  (validateRgb red green blue alpha).map rgbToHslCore

example : parseRgb ("rgb(255, 255, 255)") = .ok ⟨num 255, num 255, num 255, num 1⟩ := by decide
example : parseRgb ("rgb(255, 255, 255, 0.5)") =
    .ok ⟨num 255, num 255, num 255, num (Rat.divInt 1 2)⟩ := by decide
example : parseRgb ("rbg(0, 0, 0)") = .error (ColorError.InvalidRGBCode ("rbg(0, 0, 0)")) := by decide
example : parseRgb ("rgb(256, 0, 0)") =
    .error (ColorError.InvalidRGBCode ("rgb(256, 0, 0)")) := by decide
example : validateRgb (num 0) (num 0) (num 0) (some JSNum.nan) =
    .ok ⟨num 0, num 0, num 0, JSNum.nan⟩ := by decide
example : rgbToHex (num 255) (num 128) (num 0) none = .ok ("#FF8000FF") := by decide
example : rgbToHsl (num 1) (num 0) (num 0) none =
    .ok ⟨num 0, JSNum.inf, num 0, num 1⟩ := by decide
example : rgbToHsl (num 28) (num 0) (num 0) none =
    .ok ⟨num 0, num (Rat.divInt 11 10), num (Rat.divInt 1 20), num 1⟩ := by decide
example : rgbToHsl (num 255) (num 128) (num 0) none =
    .ok ⟨num 30, num 1, num (Rat.divInt 1 2), num 1⟩ := by decide

/-! ### HSL codec (`formats/HueSaturationLightness.ts`) -/

/-- The `colorString` template of `validateHsl` (saturation and lightness
are interpolated multiplied by 100). -/
def hslColorString (hue saturation lightness : JSNum) (alpha : Option JSNum) : String :=
  if jsTruthyOpt alpha then
    "hsla(" ++ jsNumToString hue ++ ", " ++ jsNumToString (jsMul saturation (num 100)) ++
      "%, " ++ jsNumToString (jsMul lightness (num 100)) ++ "%, " ++
      jsNumOptToString alpha ++ ")"
  else
    "hsl(" ++ jsNumToString hue ++ ", " ++ jsNumToString (jsMul saturation (num 100)) ++
      "%, " ++ jsNumToString (jsMul lightness (num 100)) ++ "%)"

/-- Embedding of `validateHsl` from `formats/HueSaturationLightness.ts`
(hue is checked against the half-open interval `[0, 360)`). -/
def validateHsl (hue saturation lightness : JSNum) (alpha : Option JSNum) :
    Except ColorError HSLA :=
  let colorString := hslColorString hue saturation lightness alpha
  if jsIsNaN hue || jsLtB hue (num 0) || jsGeB hue (num 360) then
    .error (.InvalidHSLCode colorString)
  else if jsIsNaN saturation || jsLtB saturation (num 0) || jsGtB saturation (num 1) then
    .error (.InvalidHSLCode colorString)
  else if jsIsNaN lightness || jsLtB lightness (num 0) || jsGtB lightness (num 1) then
    .error (.InvalidHSLCode colorString)
  else if jsTruthyOpt alpha && alphaOutOfRange alpha then
    .error (.InvalidHSLCode colorString)
  else
    .ok ⟨round hue 0, round saturation 2, round lightness 2, defaultAlpha alpha⟩

/-- Embedding of `parseHsl` from `formats/HueSaturationLightness.ts` (a
failed regex match throws `InvalidHSLCode`, not `InvalidColor`; the
percentage captures are divided by 100 before validation). -/
def parseHsl (color : String) : Except ColorError HSLA :=
  match hslMatch color with
  | none => .error (.InvalidHSLCode color)
  | some (hs, ss, ls, aOpt) =>
      validateHsl (optJs (captureToNum (some hs)))
        (jsDiv (optJs (captureToNum (some ss))) (num 100))
        (jsDiv (optJs (captureToNum (some ls))) (num 100))
        (captureToNum aOpt)

/-- The conversion step of `hslToRgb` applied to the validated components
(the six-sector selection `huePrimeToRGB`). -/
def hslToRgbCore (hsl : HSLA) : RGBA :=
  let hue := hsl.hue
  let saturation := hsl.saturation
  let lightness := hsl.lightness
  let chroma := jsMul (jsSub (num 1) (jsAbs (jsSub (jsMul (num 2) lightness) (num 1)))) saturation
  let huePrime := jsDiv hue (num 60)
  let position := jsMul chroma (jsSub (num 1) (jsAbs (jsSub (jsRem huePrime (num 2)) (num 1))))
  let lightnessPrime := jsSub lightness (jsDiv chroma (num 2))
  let rgbPrime : JSNum × JSNum × JSNum :=
    if jsLtB huePrime (num 1) then (chroma, position, num 0)
    else if jsLtB huePrime (num 2) then (position, chroma, num 0)
    else if jsLtB huePrime (num 3) then (num 0, chroma, position)
    else if jsLtB huePrime (num 4) then (num 0, position, chroma)
    else if jsLtB huePrime (num 5) then (position, num 0, chroma)
    else (chroma, num 0, position)
  let red := jsRound (jsMul (jsAdd rgbPrime.1 lightnessPrime) (num 255))
  let green := jsRound (jsMul (jsAdd rgbPrime.2.1 lightnessPrime) (num 255))
  let blue := jsRound (jsMul (jsAdd rgbPrime.2.2 lightnessPrime) (num 255))
  ⟨red, green, blue, hsl.alpha⟩

/-- Embedding of `hslToRgb` from `formats/HueSaturationLightness.ts`. -/
def hslToRgb (hue saturation lightness : JSNum) (alpha : Option JSNum) :
    Except ColorError RGBA :=
  (validateHsl hue saturation lightness alpha).map hslToRgbCore

example : parseHsl ("hsl(0, 100%, 50%)") =
    .ok ⟨num 0, num 1, num (Rat.divInt 1 2), num 1⟩ := by decide
example : parseHsl ("hls(0, 0, 0)") = .error (ColorError.InvalidHSLCode ("hls(0, 0, 0)")) := by decide
example : parseHsl ("hsl(360, 0%, 0%)") =
    .error (ColorError.InvalidHSLCode ("hsl(360, 0%, 0%)")) := by decide
example : validateHsl (num 0) (num 0) (num 0) (some JSNum.nan) =
    .ok ⟨num 0, num 0, num 0, JSNum.nan⟩ := by decide
example : hslToRgb (num 0) (num 1) (num (Rat.divInt 1 2)) none =
    .ok ⟨num 255, num 0, num 0, num 1⟩ := by decide
example : hslToRgb (num 120) (num 1) (num (Rat.divInt 1 2)) none =
    .ok ⟨num 0, num 255, num 0, num 1⟩ := by decide
example : hslToRgb (num 30) (num (Rat.divInt 1 100)) (num (Rat.divInt 1 2)) none =
    .ok ⟨num 129, num 128, num 126, num 1⟩ := by decide

/-! ### Color value object (`index.ts`)

The `Color` class holds eight private fields, written only by the
constructor and by `setAttributes` (which assigns all eight).  A state is a
record of those fields; each fallible operation is a function from inputs
(and, for setters, the current state) to `Except ColorError ColorState`. -/

/-- The observable fields of a `Color` instance. -/
structure ColorState where
  hexCode : String
  red : JSNum
  green : JSNum
  blue : JSNum
  hue : JSNum
  saturation : JSNum
  lightness : JSNum
  alpha : JSNum
deriving DecidableEq

/-- Embedding of the private static `Color.getAttributesFromHex`. -/
def getAttributesFromHex (color : String) : Except ColorError ColorState :=
  match parseHex color with
  | .error e => .error e
  | .ok hexCode =>
      match hexToRgb hexCode with
      | .error e => .error e
      | .ok rgb =>
          match rgbToHsl rgb.red rgb.green rgb.blue none with
          | .error e => .error e
          | .ok hsl =>
              .ok ⟨hexCode, rgb.red, rgb.green, rgb.blue,
                hsl.hue, hsl.saturation, hsl.lightness, rgb.alpha⟩

/-- Embedding of the private static `Color.getAttributesFromRgb`. -/
def getAttributesFromRgb (color : RGBA) : Except ColorError ColorState :=
  match rgbToHsl color.red color.green color.blue (some color.alpha) with
  | .error e => .error e
  | .ok hsl =>
      match rgbToHex color.red color.green color.blue (some color.alpha) with
      | .error e => .error e
      | .ok hexCode =>
          .ok ⟨hexCode, color.red, color.green, color.blue,
            hsl.hue, hsl.saturation, hsl.lightness, color.alpha⟩

/-- Embedding of the private static `Color.getAttributesFromHsl` (note the
source derives the RGB triple via `hslToRgb(hue, saturation, lightness)`
with no alpha argument). -/
def getAttributesFromHsl (color : HSLA) : Except ColorError ColorState :=
  match hslToRgb color.hue color.saturation color.lightness none with
  | .error e => .error e
  | .ok rgb =>
      match rgbToHex rgb.red rgb.green rgb.blue (some color.alpha) with
      | .error e => .error e
      | .ok hexCode =>
          .ok ⟨hexCode, rgb.red, rgb.green, rgb.blue,
            color.hue, color.saturation, color.lightness, color.alpha⟩

/-- Embedding of the private static `Color.getAttributesFromString`: a
leading `#` routes to hex, a `"rgb"` substring to RGB, a `"hsl"` substring
to HSL, anything else throws `InvalidColor`. -/
def getAttributesFromString (color : String) : Except ColorError ColorState :=
  if jsCharAt color 0 = some '#' then getAttributesFromHex color
  else if strIncludes color ("rgb") then
    match parseRgb color with
    | .error e => .error e
    | .ok rgb => getAttributesFromRgb rgb
  else if strIncludes color ("hsl") then
    match parseHsl color with
    | .error e => .error e
    | .ok hsl => getAttributesFromHsl hsl
  else .error (.InvalidColor color)

/-- Embedding of `new Color(color)`: the constructor stores the computed
attribute record into the eight fields. -/
def colorNew (color : String) : Except ColorError ColorState :=
  getAttributesFromString color

/-- Embedding of the private `setAttributes`, which assigns all eight
fields from the attribute record. -/
def setAttributes (_self : ColorState) (attributes : ColorState) : ColorState :=
  { hexCode := attributes.hexCode
    red := attributes.red
    green := attributes.green
    blue := attributes.blue
    hue := attributes.hue
    saturation := attributes.saturation
    lightness := attributes.lightness
    alpha := attributes.alpha }

/-- Embedding of the static factory `Color.rgb` (which grabs a fresh
`Color.white` instance and overwrites all of its fields). -/
def colorRgb (red green blue : JSNum) (alpha : Option JSNum) :
    Except ColorError ColorState :=
  match validateRgb red green blue alpha with
  | .error e => .error e
  | .ok rgb =>
      match getAttributesFromRgb rgb with
      | .error e => .error e
      | .ok attributes =>
          match colorNew ("#FFF") with
          | .error e => .error e
          | .ok color => .ok (setAttributes color attributes)

/-- Embedding of the static factory `Color.hsl`. -/
def colorHsl (hue saturation lightness : JSNum) (alpha : Option JSNum) :
    Except ColorError ColorState :=
  match validateHsl hue saturation lightness alpha with
  | .error e => .error e
  | .ok hsl =>
      match getAttributesFromHsl hsl with
      | .error e => .error e
      | .ok attributes =>
          match colorNew ("#FFF") with
          | .error e => .error e
          | .ok color => .ok (setAttributes color attributes)

/-- The seven single-field mutators of `Color`. -/
inductive MutField where
  | red
  | green
  | blue
  | hue
  | saturation
  | lightness
  | alpha
deriving DecidableEq

/-- Embedding of the `set red` accessor. -/
def setRed (self : ColorState) (v : JSNum) : Except ColorError ColorState :=
  match validateRgb v self.green self.blue (some self.alpha) with
  | .error e => .error e
  | .ok rgb => getAttributesFromRgb rgb

/-- Embedding of the `set green` accessor. -/
def setGreen (self : ColorState) (v : JSNum) : Except ColorError ColorState :=
  match validateRgb self.red v self.blue (some self.alpha) with
  | .error e => .error e
  | .ok rgb => getAttributesFromRgb rgb

/-- Embedding of the `set blue` accessor. -/
def setBlue (self : ColorState) (v : JSNum) : Except ColorError ColorState :=
  match validateRgb self.red self.green v (some self.alpha) with
  | .error e => .error e
  | .ok rgb => getAttributesFromRgb rgb

/-- Embedding of the `set hue` accessor. -/
def setHue (self : ColorState) (v : JSNum) : Except ColorError ColorState :=
  match validateHsl v self.saturation self.lightness (some self.alpha) with
  | .error e => .error e
  | .ok hsl => getAttributesFromHsl hsl

/-- Embedding of the `set saturation` accessor. -/
def setSaturation (self : ColorState) (v : JSNum) : Except ColorError ColorState :=
  match validateHsl self.hue v self.lightness (some self.alpha) with
  | .error e => .error e
  | .ok hsl => getAttributesFromHsl hsl

/-- Embedding of the `set lightness` accessor. -/
def setLightness (self : ColorState) (v : JSNum) : Except ColorError ColorState :=
  match validateHsl self.hue self.saturation v (some self.alpha) with
  | .error e => .error e
  | .ok hsl => getAttributesFromHsl hsl

/-- Embedding of the `set alpha` accessor (defined through the RGB path). -/
def setAlpha (self : ColorState) (v : JSNum) : Except ColorError ColorState :=
  match validateRgb self.red self.green self.blue (some v) with
  | .error e => .error e
  | .ok rgb => getAttributesFromRgb rgb

/-- Dispatch of the seven setters. -/
def setField : MutField → ColorState → JSNum → Except ColorError ColorState
  | .red => setRed
  | .green => setGreen
  | .blue => setBlue
  | .hue => setHue
  | .saturation => setSaturation
  | .lightness => setLightness
  | .alpha => setAlpha

/-- A setter run against a mutable instance: the resulting field values
together with the raised error, if any.  In the source every field write
happens inside the final `setAttributes(attributes)` call, after both
fallible calls have returned, so a thrown error leaves the fields at their
prior values. -/
def trySet (f : MutField) (self : ColorState) (v : JSNum) :
    ColorState × Option ColorError :=
  match setField f self v with
  | .ok s => (s, none)
  | .error e => (self, some e)

/-- The error, if any, of an `Except` result. -/
def errOf {α : Type} : Except ColorError α → Option ColorError
  | .error e => some e
  | .ok _ => none

/-- The validation call a given setter performs first (new value combined
with the current values of the untouched fields). -/
def mutValidationError (f : MutField) (s : ColorState) (v : JSNum) : Option ColorError :=
  match f with
  | .red => errOf (validateRgb v s.green s.blue (some s.alpha))
  | .green => errOf (validateRgb s.red v s.blue (some s.alpha))
  | .blue => errOf (validateRgb s.red s.green v (some s.alpha))
  | .hue => errOf (validateHsl v s.saturation s.lightness (some s.alpha))
  | .saturation => errOf (validateHsl s.hue v s.lightness (some s.alpha))
  | .lightness => errOf (validateHsl s.hue s.saturation v (some s.alpha))
  | .alpha => errOf (validateRgb s.red s.green s.blue (some v))

/-- Embedding of `toHex()`. -/
def toHex (s : ColorState) : String := s.hexCode

/-- Embedding of `toRgb()`. -/
def toRgb (s : ColorState) : String :=
  "rgba(" ++ jsNumToString s.red ++ ", " ++ jsNumToString s.green ++ ", " ++
    jsNumToString s.blue ++ ", " ++ jsNumToString s.alpha ++ ")"

/-- Embedding of `toHsl()` — the source template begins with the
literal text `hlsa`. -/
def toHsl (s : ColorState) : String :=
  "hlsa(" ++ jsNumToString s.hue ++ ", " ++ jsNumToString (jsMul s.saturation (num 100)) ++
    "%, " ++ jsNumToString (jsMul s.lightness (num 100)) ++ "%, " ++
    jsNumToString s.alpha ++ ")"

/-- The states of a `Color` instance observable through its public API:
those produced by the constructor, by the `Color.rgb` / `Color.hsl`
factories, and by successful single-field mutations of observable states. -/
inductive Reachable : ColorState → Prop where
  | ofString (c : String) (s : ColorState) : colorNew c = .ok s → Reachable s
  | ofRgb (r g b : JSNum) (a : Option JSNum) (s : ColorState) :
      colorRgb r g b a = .ok s → Reachable s
  | ofHsl (h sa l : JSNum) (a : Option JSNum) (s : ColorState) :
      colorHsl h sa l a = .ok s → Reachable s
  | ofSet (f : MutField) (s s2 : ColorState) (v : JSNum) :
      Reachable s → setField f s v = .ok s2 → Reachable s2

example : colorNew ("#FFF") =
    .ok ⟨"#FFFFFFFF", num 255, num 255, num 255, num 0, num 0, num 1, num 1⟩ := by decide
example : colorNew ("#00000001") =
    .ok ⟨"#00000001", num 0, num 0, num 0, num 0, num 0, num 0, num 0⟩ := by decide
example : colorRgb (num 0) (num 0) (num 0) (some (num 0)) =
    .ok ⟨"#00000000", num 0, num 0, num 0, num 0, num 0, num 0, num 0⟩ := by decide
example : colorHsl (num 30) (num (Rat.divInt 1 100)) (num (Rat.divInt 1 2)) none =
    .ok ⟨"#81807EFF", num 129, num 128, num 126,
      num 30, num (Rat.divInt 1 100), num (Rat.divInt 1 2), num 1⟩ := by decide
example : colorNew ("rbg(0, 0, 0)") = .error (ColorError.InvalidColor ("rbg(0, 0, 0)")) := by decide
example : toHsl ⟨"#FFFFFFFF", num 255, num 255, num 255, num 0, num 0, num 1, num 1⟩ =
    "hlsa(0, 0%, 100%, 1)" := by decide

/-! ### General helper lemmas -/

theorem char_eq_of_toNat_eq {c d : Char} (h : c.toNat = d.toNat) : c = d :=
  Char.ext (UInt32.ext h)

theorem charOfNat_toNat_small (k : Nat) (h : k < 55296) : (Char.ofNat k).toNat = k := by
  have hv : k.isValidChar := Or.inl h
  unfold Char.ofNat
  rw [dif_pos hv]
  rfl

theorem toUpper_toNat (c : Char) :
    (Char.toUpper c).toNat =
      if 97 ≤ c.toNat ∧ c.toNat ≤ 122 then c.toNat - 32 else c.toNat := by
  unfold Char.toUpper
  by_cases h : c.toNat ≥ 97 ∧ c.toNat ≤ 122
  · rw [if_pos h, if_pos ⟨h.1, h.2⟩, charOfNat_toNat_small _ (by omega)]
  · rw [if_neg h, if_neg (by omega)]

theorem toUpper_eq_self (c : Char) (h : ¬ (97 ≤ c.toNat ∧ c.toNat ≤ 122)) :
    Char.toUpper c = c := by
  unfold Char.toUpper
  rw [if_neg (by omega)]

theorem ratFloor_eq_intFloor (x : ℚ) : Rat.floor x = ⌊x⌋ :=
  (Rat.floor_def' x).trans Rat.floor_def.symm

theorem divInt_half_eq : (Rat.divInt 1 2 : ℚ) = 1 / 2 := by
  rw [Rat.divInt_eq_div]
  norm_num

/-- Evaluation of the `round` helper on a finite number:
`round(q, d) = ⌊q·10^d + 1/2⌋ / 10^d`. -/
theorem round_num_eq (qv : ℚ) (d : Nat) :
    round (num qv) d = num (((⌊qv * 10 ^ d + 1/2⌋ : ℤ) : ℚ) / 10 ^ d) := by
  have hPe : Rat.divInt ((10 : ℤ) ^ d) 1 = (10 : ℚ) ^ d := by
    rw [Rat.divInt_one]
    push_cast
    rfl
  have hPnee : ((10 : ℚ) ^ d) ≠ 0 := pow_ne_zero _ (by norm_num)
  simp only [round, hPe, jsMul, jsRound, ratMul_eq, ratAdd_eq, divInt_half_eq,
    ratFloor_eq_intFloor, jsDiv, if_neg hPnee]
  rw [ratDiv_eq _ _ hPnee]

theorem errOf_some {α : Type} {x : Except ColorError α} {e : ColorError}
    (h : errOf x = some e) : x = .error e := by
  cases x with
  | error e2 => simp only [errOf, Option.some.injEq] at h; rw [h]
  | ok a => simp [errOf] at h

/-! ## Claim C4

The spec claims `rgbToHsl`'s saturation always lies in 0.00–1.00 for valid
inputs and that the formula never divides by zero.  The code contradicts
this (and the range documented on its own `HueSaturationLightnessAlpha`
type): for `rgbToHsl(1, 0, 0)` the rounded lightness is 0, the denominator
`1 - |2·lightness - 1|` is 0, and the saturation is `Infinity`; for
`rgbToHsl(28, 0, 0)` the saturation is 1.1. -/

/-- C4: evaluating `rgbToHsl` at the failing inputs `(1,0,0)` and
`(28,0,0)`: the returned saturation is `Infinity` (a division by zero),
respectively `1.1`, both outside the documented range `0.00–1.00`. -/
theorem C4_rgbToHsl_saturation_escapes_range :
    rgbToHsl (num 1) (num 0) (num 0) none =
      .ok ⟨num 0, JSNum.inf, num 0, num 1⟩ ∧
    rgbToHsl (num 28) (num 0) (num 0) none =
      .ok ⟨num 0, num (Rat.divInt 11 10), num (Rat.divInt 1 20), num 1⟩ ∧
    (1 : ℚ) < Rat.divInt 11 10 :=
  ⟨by decide, by decide, by decide⟩

/-! ## Claim C6

The spec claims a provided not-a-number alpha is always rejected.  In the
code the alpha check sits under the truthiness guard `alpha && (...)`; `NaN`
is falsy, so the guard skips the check (the `isNaN(alpha)` test inside it is
unreachable) and `NaN` is committed as the alpha of the returned record. -/

/-- C6: `validateRgb(0,0,0,NaN)` and `validateHsl(0,0,0,NaN)` succeed and
commit `alpha = NaN` instead of failing with `InvalidRGBCode` /
`InvalidHSLCode`. -/
theorem C6_validate_commits_nan_alpha :
    validateRgb (num 0) (num 0) (num 0) (some JSNum.nan) =
      .ok ⟨num 0, num 0, num 0, JSNum.nan⟩ ∧
    validateHsl (num 0) (num 0) (num 0) (some JSNum.nan) =
      .ok ⟨num 0, num 0, num 0, JSNum.nan⟩ :=
  ⟨by decide, by decide⟩

/-! ## Claim C8

The spec (and the library's own README) say `toHsl()` renders
`hsla(H, S%, L%, A)`.  The source template begins with the literal text
`hlsa` — a typo — so every rendered string starts with `"hlsa("`. -/

/-- C8: `toHsl` of the state constructed from `"#FFF"` renders
`"hlsa(0, 0%, 100%, 1)"`, and for every state the rendered string begins
with `"hlsa("`, never with `"hsla("`. -/
theorem C8_toHsl_renders_hlsa :
    (colorNew ("#FFF")).map toHsl = .ok ("hlsa(0, 0%, 100%, 1)") ∧
    ∀ s : ColorState, (toHsl s).data.take 5 = ['h', 'l', 's', 'a', '('] :=
  ⟨by decide, fun s => rfl⟩

/-! ## Claim C10

The spec claims `round` rounds half away from zero, so that
`round(-0.5, 0) = -1`.  The implementation uses `Math.round`, which rounds
half toward positive infinity: `round(-0.5, 0) = 0`. -/

/-- C10 counterexample: `round(-0.5, 0)` evaluates to `0`, not the `-1` the
claim requires. -/
theorem C10_round_half_counterexample :
    round (num (Rat.divInt (-1) 2)) 0 = num 0 ∧ num 0 ≠ num (-1) :=
  ⟨by decide, by decide⟩

/-- C10 as amended: `round(value, decimals)` rounds half TOWARD POSITIVE
INFINITY (`Math.round` semantics), i.e. it returns
`⌊value·10^d + 1/2⌋ / 10^d`; with `decimals = 0` it returns an
integer-valued number. -/
theorem C10_round_half_up_amended (qv : ℚ) (d : Nat) :
    round (num qv) d = num (((⌊qv * 10 ^ d + 1/2⌋ : ℤ) : ℚ) / 10 ^ d) ∧
    ∃ k : ℤ, round (num qv) 0 = num ((k : ℤ) : ℚ) :=
  ⟨round_num_eq qv d, ⟨⌊qv * 1 + 1/2⌋, by rw [round_num_eq qv 0]; norm_num⟩⟩

/-! ### Inversion lemmas for the codec pipelines -/

theorem validateRgb_ok_elim {r g b : JSNum} {a : Option JSNum} {v : RGBA}
    (h : validateRgb r g b a = .ok v) :
    v = ⟨jsRound r, jsRound g, jsRound b, defaultAlpha a⟩ := by
  unfold validateRgb at h
  split at h
  · exact Except.noConfusion h
  · split at h
    · exact Except.noConfusion h
    · exact (Except.ok.inj h).symm

theorem validateHsl_ok_elim {hu sa li : JSNum} {a : Option JSNum} {v : HSLA}
    (h : validateHsl hu sa li a = .ok v) :
    v = ⟨round hu 0, round sa 2, round li 2, defaultAlpha a⟩ := by
  unfold validateHsl at h
  split at h
  · exact Except.noConfusion h
  · split at h
    · exact Except.noConfusion h
    · split at h
      · exact Except.noConfusion h
      · split at h
        · exact Except.noConfusion h
        · exact (Except.ok.inj h).symm

theorem validateRgb_some_ok_none {r g b av : JSNum} {v : RGBA}
    (h : validateRgb r g b (some av) = .ok v) :
    validateRgb r g b none = .ok ⟨v.red, v.green, v.blue, num 1⟩ := by
  unfold validateRgb at h ⊢
  split at h
  · exact Except.noConfusion h
  · next hchan =>
    rw [if_neg hchan]
    split at h
    · exact Except.noConfusion h
    · have hv := (Except.ok.inj h).symm
      rw [hv]
      rfl

theorem rgbToHsl_ok_elim {r g b : JSNum} {a : Option JSNum} {o : HSLA}
    (h : rgbToHsl r g b a = .ok o) :
    ∃ v : RGBA, validateRgb r g b a = .ok v ∧ o = rgbToHslCore v := by
  unfold rgbToHsl at h
  cases hv : validateRgb r g b a with
  | error e => rw [hv] at h; exact Except.noConfusion h
  | ok v =>
      rw [hv] at h
      exact ⟨v, rfl, (Except.ok.inj h).symm⟩

theorem rgbToHex_ok_elim {r g b : JSNum} {a : Option JSNum} {hx : String}
    (h : rgbToHex r g b a = .ok hx) :
    ∃ v : RGBA, validateRgb r g b a = .ok v ∧ hx = rgbToHexCore v := by
  unfold rgbToHex at h
  cases hv : validateRgb r g b a with
  | error e => rw [hv] at h; exact Except.noConfusion h
  | ok v =>
      rw [hv] at h
      exact ⟨v, rfl, (Except.ok.inj h).symm⟩

theorem hslToRgb_ok_elim {hu sa li : JSNum} {a : Option JSNum} {o : RGBA}
    (h : hslToRgb hu sa li a = .ok o) :
    ∃ v : HSLA, validateHsl hu sa li a = .ok v ∧ o = hslToRgbCore v := by
  unfold hslToRgb at h
  cases hv : validateHsl hu sa li a with
  | error e => rw [hv] at h; exact Except.noConfusion h
  | ok v =>
      rw [hv] at h
      exact ⟨v, rfl, (Except.ok.inj h).symm⟩

theorem hexToRgb_ok_elim {s : String} {rgb : RGBA}
    (h : hexToRgb s = .ok rgb) :
    ∃ N : String, parseHex s = .ok N ∧ rgb = hexDecode N := by
  unfold hexToRgb at h
  cases hp : parseHex s with
  | error e => rw [hp] at h; exact Except.noConfusion h
  | ok N =>
      rw [hp] at h
      exact ⟨N, rfl, (Except.ok.inj h).symm⟩

/-- The hue/saturation/lightness components of `rgbToHsl` do not depend on
the alpha argument: the `some`-alpha result determines the `none`-alpha one. -/
theorem rgbToHsl_drop_alpha {r g b av : JSNum} {o : HSLA}
    (h : rgbToHsl r g b (some av) = .ok o) :
    ∃ o2 : HSLA, rgbToHsl r g b none = .ok o2 ∧
      o2.hue = o.hue ∧ o2.saturation = o.saturation ∧ o2.lightness = o.lightness := by
  obtain ⟨v, hv, ho⟩ := rgbToHsl_ok_elim h
  have hnone := validateRgb_some_ok_none hv
  refine ⟨rgbToHslCore ⟨v.red, v.green, v.blue, num 1⟩, ?_, ?_, ?_, ?_⟩
  · unfold rgbToHsl
    rw [hnone]
    rfl
  · rw [ho]; rfl
  · rw [ho]; rfl
  · rw [ho]; rfl

/-! ### The cross-representation linkage invariant -/

/-- A state whose RGB/alpha fields decode from its hex string and whose HSL
fields are `rgbToHsl` of its RGB fields (hex-constructed states). -/
def HexLinked (s : ColorState) : Prop :=
  hexToRgb s.hexCode = .ok ⟨s.red, s.green, s.blue, s.alpha⟩ ∧
  ∃ o : HSLA, rgbToHsl s.red s.green s.blue none = .ok o ∧
    o.hue = s.hue ∧ o.saturation = s.saturation ∧ o.lightness = s.lightness

/-- A state whose hex string is `rgbToHex` of its RGB/alpha fields and whose
HSL fields are `rgbToHsl` of its RGB fields (rgb-derived states). -/
def RgbLinked (s : ColorState) : Prop :=
  rgbToHex s.red s.green s.blue (some s.alpha) = .ok s.hexCode ∧
  ∃ o : HSLA, rgbToHsl s.red s.green s.blue none = .ok o ∧
    o.hue = s.hue ∧ o.saturation = s.saturation ∧ o.lightness = s.lightness

/-- A state whose hex string is `rgbToHex` of its RGB/alpha fields and whose
RGB fields are `hslToRgb` of its HSL fields (hsl-derived states). -/
def HslLinked (s : ColorState) : Prop :=
  rgbToHex s.red s.green s.blue (some s.alpha) = .ok s.hexCode ∧
  ∃ o : RGBA, hslToRgb s.hue s.saturation s.lightness none = .ok o ∧
    o.red = s.red ∧ o.green = s.green ∧ o.blue = s.blue

theorem getAttributesFromHex_ok {c : String} {s : ColorState}
    (h : getAttributesFromHex c = .ok s) : HexLinked s := by
  unfold getAttributesFromHex at h
  cases hp : parseHex c with
  | error e => simp only [hp] at h; exact Except.noConfusion h
  | ok hx =>
      simp only [hp] at h
      cases hr : hexToRgb hx with
      | error e => simp only [hr] at h; exact Except.noConfusion h
      | ok rgb =>
          simp only [hr] at h
          cases hh : rgbToHsl rgb.red rgb.green rgb.blue none with
          | error e => simp only [hh] at h; exact Except.noConfusion h
          | ok hsl =>
              simp only [hh, Except.ok.injEq] at h
              subst h
              exact ⟨hr, ⟨hsl, hh, rfl, rfl, rfl⟩⟩

theorem getAttributesFromRgb_ok {col : RGBA} {s : ColorState}
    (h : getAttributesFromRgb col = .ok s) : RgbLinked s := by
  unfold getAttributesFromRgb at h
  cases hh : rgbToHsl col.red col.green col.blue (some col.alpha) with
  | error e => simp only [hh] at h; exact Except.noConfusion h
  | ok hsl =>
      simp only [hh] at h
      cases hx : rgbToHex col.red col.green col.blue (some col.alpha) with
      | error e => simp only [hx] at h; exact Except.noConfusion h
      | ok hexCode =>
          simp only [hx, Except.ok.injEq] at h
          subst h
          obtain ⟨o2, ho2, h1, h2, h3⟩ := rgbToHsl_drop_alpha hh
          exact ⟨hx, ⟨o2, ho2, by rw [h1], by rw [h2], by rw [h3]⟩⟩

theorem getAttributesFromHsl_ok {col : HSLA} {s : ColorState}
    (h : getAttributesFromHsl col = .ok s) : HslLinked s := by
  unfold getAttributesFromHsl at h
  cases hr : hslToRgb col.hue col.saturation col.lightness none with
  | error e => simp only [hr] at h; exact Except.noConfusion h
  | ok rgb =>
      simp only [hr] at h
      cases hx : rgbToHex rgb.red rgb.green rgb.blue (some col.alpha) with
      | error e => simp only [hx] at h; exact Except.noConfusion h
      | ok hexCode =>
          simp only [hx, Except.ok.injEq] at h
          subst h
          exact ⟨hx, ⟨rgb, hr, rfl, rfl, rfl⟩⟩

theorem getAttributesFromString_ok {c : String} {s : ColorState}
    (h : getAttributesFromString c = .ok s) :
    HexLinked s ∨ RgbLinked s ∨ HslLinked s := by
  unfold getAttributesFromString at h
  split_ifs at h with h1 h2 h3
  · exact Or.inl (getAttributesFromHex_ok h)
  · cases hp : parseRgb c with
    | error e => simp only [hp] at h; exact Except.noConfusion h
    | ok rgb => simp only [hp] at h; exact Or.inr (Or.inl (getAttributesFromRgb_ok h))
  · cases hp : parseHsl c with
    | error e => simp only [hp] at h; exact Except.noConfusion h
    | ok hsl => simp only [hp] at h; exact Or.inr (Or.inr (getAttributesFromHsl_ok h))

theorem colorRgb_ok {r g b : JSNum} {a : Option JSNum} {s : ColorState}
    (h : colorRgb r g b a = .ok s) : RgbLinked s := by
  unfold colorRgb at h
  cases hv : validateRgb r g b a with
  | error e => simp only [hv] at h; exact Except.noConfusion h
  | ok rgb =>
      simp only [hv] at h
      cases ha : getAttributesFromRgb rgb with
      | error e => simp only [ha] at h; exact Except.noConfusion h
      | ok attributes =>
          simp only [ha] at h
          cases hw : colorNew ("#FFF") with
          | error e => simp only [hw] at h; exact Except.noConfusion h
          | ok w =>
              simp only [hw, Except.ok.injEq] at h
              have hs : s = attributes := by rw [← h]; rfl
              rw [hs]
              exact getAttributesFromRgb_ok ha

theorem colorHsl_ok {hu sa li : JSNum} {a : Option JSNum} {s : ColorState}
    (h : colorHsl hu sa li a = .ok s) : HslLinked s := by
  unfold colorHsl at h
  cases hv : validateHsl hu sa li a with
  | error e => simp only [hv] at h; exact Except.noConfusion h
  | ok hsl =>
      simp only [hv] at h
      cases ha : getAttributesFromHsl hsl with
      | error e => simp only [ha] at h; exact Except.noConfusion h
      | ok attributes =>
          simp only [ha] at h
          cases hw : colorNew ("#FFF") with
          | error e => simp only [hw] at h; exact Except.noConfusion h
          | ok w =>
              simp only [hw, Except.ok.injEq] at h
              have hs : s = attributes := by rw [← h]; rfl
              rw [hs]
              exact getAttributesFromHsl_ok ha

theorem setField_ok {f : MutField} {s s2 : ColorState} {v : JSNum}
    (h : setField f s v = .ok s2) : RgbLinked s2 ∨ HslLinked s2 := by
  cases f with
  | red =>
      unfold setField setRed at h
      cases hv : validateRgb v s.green s.blue (some s.alpha) with
      | error e => simp only [hv] at h; exact Except.noConfusion h
      | ok rgb => simp only [hv] at h; exact Or.inl (getAttributesFromRgb_ok h)
  | green =>
      unfold setField setGreen at h
      cases hv : validateRgb s.red v s.blue (some s.alpha) with
      | error e => simp only [hv] at h; exact Except.noConfusion h
      | ok rgb => simp only [hv] at h; exact Or.inl (getAttributesFromRgb_ok h)
  | blue =>
      unfold setField setBlue at h
      cases hv : validateRgb s.red s.green v (some s.alpha) with
      | error e => simp only [hv] at h; exact Except.noConfusion h
      | ok rgb => simp only [hv] at h; exact Or.inl (getAttributesFromRgb_ok h)
  | hue =>
      unfold setField setHue at h
      cases hv : validateHsl v s.saturation s.lightness (some s.alpha) with
      | error e => simp only [hv] at h; exact Except.noConfusion h
      | ok hsl => simp only [hv] at h; exact Or.inr (getAttributesFromHsl_ok h)
  | saturation =>
      unfold setField setSaturation at h
      cases hv : validateHsl s.hue v s.lightness (some s.alpha) with
      | error e => simp only [hv] at h; exact Except.noConfusion h
      | ok hsl => simp only [hv] at h; exact Or.inr (getAttributesFromHsl_ok h)
  | lightness =>
      unfold setField setLightness at h
      cases hv : validateHsl s.hue s.saturation v (some s.alpha) with
      | error e => simp only [hv] at h; exact Except.noConfusion h
      | ok hsl => simp only [hv] at h; exact Or.inr (getAttributesFromHsl_ok h)
  | alpha =>
      unfold setField setAlpha at h
      cases hv : validateRgb s.red s.green s.blue (some v) with
      | error e => simp only [hv] at h; exact Except.noConfusion h
      | ok rgb => simp only [hv] at h; exact Or.inl (getAttributesFromRgb_ok h)

theorem getAttributesFromRgb_fields {col : RGBA} {s : ColorState}
    (h : getAttributesFromRgb col = .ok s) :
    s.red = col.red ∧ s.green = col.green ∧ s.blue = col.blue ∧ s.alpha = col.alpha := by
  unfold getAttributesFromRgb at h
  cases hh : rgbToHsl col.red col.green col.blue (some col.alpha) with
  | error e => simp only [hh] at h; exact Except.noConfusion h
  | ok hsl =>
      simp only [hh] at h
      cases hx : rgbToHex col.red col.green col.blue (some col.alpha) with
      | error e => simp only [hx] at h; exact Except.noConfusion h
      | ok hexCode =>
          simp only [hx, Except.ok.injEq] at h
          subst h
          exact ⟨rfl, rfl, rfl, rfl⟩

/-! ## Claim C2

The spec claims every observable state satisfies
`hexCode = rgbToHex(red, green, blue, alpha)` and that
`(hue, saturation, lightness)` agrees with `rgbToHsl(red, green, blue)` to
within the documented rounding.  Both conjuncts fail on the code:

* a hex-constructed state keeps the parsed hex string, whose alpha byte
  need not survive the 2-decimal alpha quantization —
  `new Color("#00000001")` stores `hexCode = "#00000001"` while
  `rgbToHex(0, 0, 0, 0)` is `"#00000000"`;
* an hsl-derived state keeps the validated HSL input, which can disagree
  with `rgbToHsl` of the stored (rounded) RGB triple by far more than the
  rounding precision — `Color.hsl(30, 0.01, 0.5)` stores `hue = 30` while
  `rgbToHsl(129, 128, 126)` reports `hue = 40`.

What does hold is that every observable state is linked through the
derivation chain that produced it (`HexLinked` / `RgbLinked` /
`HslLinked`). -/

/-- C2 counterexample: the state of `new Color("#00000001")` violates
`hexCode = rgbToHex(red, green, blue, alpha)`, and the state of
`Color.hsl(30, 0.01, 0.5)` stores `hue = 30` although `rgbToHsl` of its
RGB fields reports `hue = 40` — ten whole units away, beyond the
documented whole-unit rounding of hue. -/
theorem C2_invariant_counterexample :
    (colorNew ("#00000001") =
      .ok ⟨"#00000001", num 0, num 0, num 0, num 0, num 0, num 0, num 0⟩) ∧
    rgbToHex (num 0) (num 0) (num 0) (some (num 0)) = .ok ("#00000000") ∧
    ("#00000001" : String) ≠ "#00000000" ∧
    (colorHsl (num 30) (num (Rat.divInt 1 100)) (num (Rat.divInt 1 2)) none =
      .ok ⟨"#81807EFF", num 129, num 128, num 126,
        num 30, num (Rat.divInt 1 100), num (Rat.divInt 1 2), num 1⟩) ∧
    rgbToHsl (num 129) (num 128) (num 126) none =
      .ok ⟨num 40, num (Rat.divInt 1 100), num (Rat.divInt 1 2), num 1⟩ ∧
    (num 40 : JSNum) ≠ num 30 :=
  ⟨by decide, by decide, by decide, by decide, by decide, by decide⟩

/-- C2 as amended: every observable state of a `Color` instance is
internally consistent along the derivation that produced it — it is
`HexLinked` (its RGB/alpha decode from its hex string and its HSL fields
are `rgbToHsl` of its RGB fields), `RgbLinked` (its hex string is
`rgbToHex` of its fields and its HSL fields are `rgbToHsl` of its RGB
fields), or `HslLinked` (its hex string is `rgbToHex` of its fields and
its RGB fields are `hslToRgb` of its HSL fields). -/
theorem C2_invariant_amended (s : ColorState) (h : Reachable s) :
    HexLinked s ∨ RgbLinked s ∨ HslLinked s := by
  induction h with
  | ofString c s hc => exact getAttributesFromString_ok hc
  | ofRgb r g b a s hc => exact Or.inr (Or.inl (colorRgb_ok hc))
  | ofHsl hu sa li a s hc => exact Or.inr (Or.inr (colorHsl_ok hc))
  | ofSet f s s2 v hr hset ih =>
      rcases setField_ok hset with h1 | h2
      · exact Or.inr (Or.inl h1)
      · exact Or.inr (Or.inr h2)

/-- C2 witness: the invariant instantiated at the state of
`new Color("#FFF")`. -/
theorem C2_invariant_witness :
    HexLinked ⟨"#FFFFFFFF", num 255, num 255, num 255, num 0, num 0, num 1, num 1⟩ ∨
    RgbLinked ⟨"#FFFFFFFF", num 255, num 255, num 255, num 0, num 0, num 1, num 1⟩ ∨
    HslLinked ⟨"#FFFFFFFF", num 255, num 255, num 255, num 0, num 0, num 1, num 1⟩ :=
  C2_invariant_amended _ (Reachable.ofString ("#FFF") _ (by decide))

/-! ## Claim C5

The spec claims `parseRgb` / `parseHsl` fail with `InvalidColor` when the
string does not match the shape at all.  In the code they throw
`InvalidRGBCode` / `InvalidHSLCode` on a failed regex match; the
`InvalidColor` kind for misspellings like `"rbg(0,0,0)"` is produced by the
`Color` constructor's routing (such strings contain neither `"rgb"` nor
`"hsl"` and so never reach the parsers). -/

/-- C5 counterexample: `parseRgb("rbg(0, 0, 0)")` fails with
`InvalidRGBCode` (not `InvalidColor`), and `parseHsl("hls(0, 0, 0)")`
fails with `InvalidHSLCode` (not `InvalidColor`). -/
theorem C5_parse_error_kind_counterexample :
    parseRgb ("rbg(0, 0, 0)") = .error (ColorError.InvalidRGBCode ("rbg(0, 0, 0)")) ∧
    parseHsl ("hls(0, 0, 0)") = .error (ColorError.InvalidHSLCode ("hls(0, 0, 0)")) ∧
    ColorError.InvalidRGBCode ("rbg(0, 0, 0)") ≠ ColorError.InvalidColor ("rbg(0, 0, 0)") :=
  ⟨by decide, by decide, by decide⟩

/-- C5 as amended: `parseRgb` fails with `InvalidRGBCode` and `parseHsl`
with `InvalidHSLCode` on every shape mismatch, while the `Color`
constructor fails with `InvalidColor` for every string that starts with no
`#` and contains neither `"rgb"` nor `"hsl"` (which covers the misspelled
keywords `"rbg(...)"` and `"hls(...)"`). -/
theorem C5_error_kinds_amended :
    (∀ c : String, rgbMatch c = none → parseRgb c = .error (.InvalidRGBCode c)) ∧
    (∀ c : String, hslMatch c = none → parseHsl c = .error (.InvalidHSLCode c)) ∧
    (∀ c : String, jsCharAt c 0 ≠ some '#' → strIncludes c ("rgb") = false →
      strIncludes c ("hsl") = false → colorNew c = .error (.InvalidColor c)) := by
  refine ⟨?_, ?_, ?_⟩
  · intro c h
    unfold parseRgb
    simp only [h]
  · intro c h
    unfold parseHsl
    simp only [h]
  · intro c h1 h2 h3
    unfold colorNew getAttributesFromString
    simp [h1, h2, h3]

/-- C5 witness: the amended statement applied to the misspelled inputs. -/
theorem C5_error_kinds_witness :
    parseRgb ("rbg(0, 0, 0)") = .error (.InvalidRGBCode ("rbg(0, 0, 0)")) ∧
    parseHsl ("hls(0, 0, 0)") = .error (.InvalidHSLCode ("hls(0, 0, 0)")) ∧
    colorNew ("rbg(0, 0, 0)") = .error (.InvalidColor ("rbg(0, 0, 0)")) :=
  ⟨C5_error_kinds_amended.1 _ (by decide), C5_error_kinds_amended.2.1 _ (by decide),
    C5_error_kinds_amended.2.2 _ (by decide) (by decide) (by decide)⟩

/-! ## Claim C3

Every setter validates first (reusing the untouched fields), then computes
the full attribute record, and only then writes the fields — all within
`setAttributes`.  A validation failure therefore surfaces the error and
leaves every observable field unchanged. -/

/-- C3: if the new value for any of the seven mutable fields fails its
validation against the current values of the untouched fields, the setter
raises exactly that error and the instance retains every field value. -/
theorem C3_failed_mutation_atomic (f : MutField) (s : ColorState) (v : JSNum)
    (e : ColorError) (h : mutValidationError f s v = some e) :
    trySet f s v = (s, some e) := by
  cases f <;>
    (simp only [mutValidationError] at h
     have hv := errOf_some h
     simp [trySet, setField, setRed, setGreen, setBlue, setHue, setSaturation,
       setLightness, setAlpha, hv])

/-- C3 witness: setting `red = 256` on the white state fails with
`InvalidRGBCode` and the state is unchanged. -/
theorem C3_failed_mutation_witness :
    trySet MutField.red
      ⟨"#FFFFFFFF", num 255, num 255, num 255, num 0, num 0, num 1, num 1⟩ (num 256) =
      (⟨"#FFFFFFFF", num 255, num 255, num 255, num 0, num 0, num 1, num 1⟩,
        some (ColorError.InvalidRGBCode ("rgba(256, 255, 255, 1)"))) :=
  C3_failed_mutation_atomic MutField.red _ (num 256) _ (by decide)

/-! ## Claim C9

`defaultAlpha` tests `alpha !== undefined` (presence, not truthiness), so a
provided alpha of exactly 0 is rounded and returned — `Color.rgb(r,g,b,0)`
really is fully transparent. -/

/-- C9: `defaultAlpha` returns `round(alpha, 2)` whenever alpha is
provided — including provided `0`, which yields `0` — and `1` when it is
omitted; consequently every state `Color.rgb(r, g, b, 0)` produces has
`alpha = 0`. -/
theorem C9_defaultAlpha_zero_preserved :
    (∀ a : JSNum, defaultAlpha (some a) = round a 2) ∧
    defaultAlpha none = num 1 ∧
    defaultAlpha (some (num 0)) = num 0 ∧
    (∀ (r g b : JSNum) (s : ColorState),
      colorRgb r g b (some (num 0)) = .ok s → s.alpha = num 0) := by
  refine ⟨fun a => rfl, rfl, by decide, ?_⟩
  intro r g b s h
  unfold colorRgb at h
  cases hv : validateRgb r g b (some (num 0)) with
  | error e => simp only [hv] at h; exact Except.noConfusion h
  | ok rgb =>
      simp only [hv] at h
      cases ha : getAttributesFromRgb rgb with
      | error e => simp only [ha] at h; exact Except.noConfusion h
      | ok attributes =>
          simp only [ha] at h
          cases hw : colorNew ("#FFF") with
          | error e => simp only [hw] at h; exact Except.noConfusion h
          | ok w =>
              simp only [hw, Except.ok.injEq] at h
              have hs : s = attributes := by rw [← h]; rfl
              have h1 := (getAttributesFromRgb_fields ha).2.2.2
              have h2 : rgb.alpha = num 0 := by
                rw [validateRgb_ok_elim hv]
                show defaultAlpha (some (num 0)) = num 0
                decide
              rw [hs, h1, h2]

/-- C9 witness: `defaultAlpha(0) = 0` and the state of
`Color.rgb(0, 0, 0, 0)` has `alpha = 0`. -/
theorem C9_witness :
    defaultAlpha (some (num 0)) = num 0 ∧
    (⟨"#00000000", num 0, num 0, num 0, num 0, num 0, num 0, num 0⟩ : ColorState).alpha = num 0 :=
  ⟨C9_defaultAlpha_zero_preserved.2.2.1,
    C9_defaultAlpha_zero_preserved.2.2.2 (num 0) (num 0) (num 0) _ (by decide)⟩

/-! ## Claim C7

The spec sentence behind this claim says `parseHex` accepts the four forms
`#RGB`, `#RGBA`, `#RRGGBB`, `#RRGGBBAA`.  `HEX_REGEX` only admits 3, 6, or
8 hex digits after the `#` — the 4-digit `#RGBA` shorthand is rejected with
`InvalidHexCode` (the repository's own test suite asserts `"#FFFF"` is an
error, and the alpha-duplication branch in `parseHex` reads `string[4]` of
a 4-character string, which is always `undefined`). -/

/-- The shape accepted by `HEX_REGEX`: a leading `#` followed by exactly
3, 6, or 8 hex digits. -/
def HexShape (H : String) : Prop :=
  ∃ rest : List Char, H.data = '#' :: rest ∧ (∀ c ∈ rest, isHexDigitChar c = true) ∧
    (rest.length = 3 ∨ rest.length = 6 ∨ rest.length = 8)

theorem hexTest_iff (H : String) : hexTest H = true ↔ HexShape H := by
  unfold hexTest HexShape
  cases hd : H.data with
  | nil => simp [hd]
  | cons c rest =>
      simp only [hd, Bool.and_eq_true, beq_iff_eq, List.all_eq_true, Bool.or_eq_true,
        Nat.beq_eq_true_eq, List.cons.injEq, or_assoc]
      constructor
      · rintro ⟨rfl, hall, hlen⟩
        exact ⟨rest, ⟨rfl, rfl⟩, hall, hlen⟩
      · rintro ⟨rest2, ⟨rfl, rfl⟩, hall, hlen⟩
        exact ⟨rfl, hall, hlen⟩

/-- C7 counterexample: the 4-digit shorthand `"#FFFF"` — which the claim
says `parseHex` accepts and expands — is rejected with `InvalidHexCode`. -/
theorem C7_parseHex_four_digit_counterexample :
    parseHex ("#FFFF") = .error (ColorError.InvalidHexCode ("#FFFF")) := by decide

/-- C7 as amended: `parseHex` succeeds exactly on `#` followed by 3, 6, or
8 hex digits of either case (so `#RGBA` is NOT accepted), fails with
`InvalidHexCode` on everything else, and expands the 3-digit shorthand by
digit duplication with the alpha pair defaulting to `FF`. -/
theorem C7_parseHex_amended :
    (∀ H : String, (∃ N, parseHex H = .ok N) ↔ HexShape H) ∧
    (∀ H : String, ¬ HexShape H → parseHex H = .error (.InvalidHexCode H)) ∧
    (∀ c1 c2 c3 : Char, isHexDigitChar c1 = true → isHexDigitChar c2 = true →
      isHexDigitChar c3 = true →
      parseHex (String.mk ['#', c1, c2, c3]) =
        .ok (String.mk ['#', c1.toUpper, c1.toUpper, c2.toUpper, c2.toUpper,
          c3.toUpper, c3.toUpper, 'F', 'F'])) := by
  have reject : ∀ H : String, ¬ HexShape H → parseHex H = .error (.InvalidHexCode H) := by
    intro H h
    have ht : hexTest H = false := by
      rw [← Bool.not_eq_true, hexTest_iff]
      exact h
    unfold parseHex
    rw [ht]
    rfl
  refine ⟨?_, reject, ?_⟩
  · intro H
    constructor
    · rintro ⟨N, hN⟩
      by_contra hs
      rw [reject H hs] at hN
      exact Except.noConfusion hN
    · intro hs
      have ht : hexTest H = true := (hexTest_iff H).mpr hs
      unfold parseHex
      rw [ht]
      simp only [Bool.not_true, Bool.false_eq_true, if_false]
      split_ifs <;> exact ⟨_, rfl⟩
  · intro c1 c2 c3 h1 h2 h3
    have ht : hexTest (String.mk ['#', c1, c2, c3]) = true := by
      simp [hexTest, h1, h2, h3]
    unfold parseHex
    rw [ht]
    rfl

/-- C7 witness: `parseHex("#f00")` expands to `"#FF0000FF"` and the
5-digit string `"#FFFFF"` is rejected with `InvalidHexCode`. -/
theorem C7_parseHex_witness :
    parseHex ("#f00") = .ok ("#FF0000FF") ∧
    parseHex ("#FFFFF") = .error (.InvalidHexCode ("#FFFFF")) :=
  ⟨C7_parseHex_amended.2.2 'f' '0' '0' (by decide) (by decide) (by decide),
    C7_parseHex_amended.2.1 _
      (fun hs => absurd ((hexTest_iff _).mpr hs) (by decide))⟩

/-! ## Claim C1

Infrastructure: characterizing `parseHex`'s normalized output and the
byte-level encode/decode round trip. -/

/-- An uppercase hexadecimal digit (the characters of a normalized hex
string). -/
def isUpperHexDigit (c : Char) : Bool :=
  (48 ≤ c.toNat && c.toNat ≤ 57) || (65 ≤ c.toNat && c.toNat ≤ 70)

/-- The lowercase character for a hex digit value, as produced by
`toString(16)`. -/
def lowHexDigit (v : Nat) : Char :=
  Char.ofNat (if v < 10 then 48 + v else 87 + v)

/-- The uppercase character for a hex digit value. -/
def upHexDigit (v : Nat) : Char :=
  Char.ofNat (if v < 10 then 48 + v else 55 + v)

theorem hexDigit_toNat_ranges (c : Char) (h : isHexDigitChar c = true) :
    (48 ≤ c.toNat ∧ c.toNat ≤ 57) ∨ (97 ≤ c.toNat ∧ c.toNat ≤ 102) ∨
      (65 ≤ c.toNat ∧ c.toNat ≤ 70) := by
  simpa [isHexDigitChar, Bool.or_eq_true, Bool.and_eq_true, decide_eq_true_eq,
    or_assoc] using h

theorem upperHexDigit_toNat_ranges (c : Char) (h : isUpperHexDigit c = true) :
    (48 ≤ c.toNat ∧ c.toNat ≤ 57) ∨ (65 ≤ c.toNat ∧ c.toNat ≤ 70) := by
  simpa [isUpperHexDigit, Bool.or_eq_true, Bool.and_eq_true, decide_eq_true_eq] using h

theorem hexVal_lt_16_of_upper (c : Char) (h : isUpperHexDigit c = true) : hexVal c < 16 := by
  have hr := upperHexDigit_toNat_ranges c h
  unfold hexVal
  split_ifs <;> omega

theorem hexVal_lt_16_of_hex (c : Char) (h : isHexDigitChar c = true) : hexVal c < 16 := by
  have hr := hexDigit_toNat_ranges c h
  unfold hexVal
  split_ifs <;> omega

theorem isHexDigitChar_of_upper (c : Char) (h : isUpperHexDigit c = true) :
    isHexDigitChar c = true := by
  have hr := upperHexDigit_toNat_ranges c h
  simp only [isHexDigitChar, Bool.or_eq_true, Bool.and_eq_true, decide_eq_true_eq]
  omega

theorem toUpper_of_hexDigit (c : Char) (h : isHexDigitChar c = true) :
    isUpperHexDigit (Char.toUpper c) = true ∧ hexVal (Char.toUpper c) = hexVal c := by
  have hr := hexDigit_toNat_ranges c h
  have hu := toUpper_toNat c
  constructor
  · simp only [isUpperHexDigit, Bool.or_eq_true, Bool.and_eq_true, decide_eq_true_eq, hu]
    split_ifs <;> omega
  · unfold hexVal
    rw [hu]
    split_ifs <;> omega

theorem upHexDigit_hexVal (c : Char) (h : isUpperHexDigit c = true) :
    upHexDigit (hexVal c) = c := by
  have hr := upperHexDigit_toNat_ranges c h
  have hb : (if hexVal c < 10 then 48 + hexVal c else 55 + hexVal c) < 55296 := by
    have := hexVal_lt_16_of_upper c h
    split_ifs <;> omega
  apply char_eq_of_toNat_eq
  unfold upHexDigit
  rw [charOfNat_toNat_small _ hb]
  unfold hexVal
  split_ifs <;> omega

theorem toUpper_lowHexDigit (v : Nat) (h : v < 16) :
    Char.toUpper (lowHexDigit v) = upHexDigit v := by
  have key : ∀ w : Fin 16, Char.toUpper (lowHexDigit w.val) = upHexDigit w.val := by decide
  exact key ⟨v, h⟩

theorem parseInt16_pair (c1 c2 : Char) (h1 : isHexDigitChar c1 = true)
    (h2 : isHexDigitChar c2 = true) :
    parseInt16 (String.mk [c1] ++ String.mk [c2]) =
      num ((16 * hexVal c1 + hexVal c2 : ℕ) : ℚ) := by
  show parseInt16 (String.mk [c1, c2]) = _
  unfold parseInt16
  simp only [List.takeWhile, h1, h2, List.isEmpty, List.foldl]
  norm_num

theorem jsRound_natCast (k : ℕ) : jsRound (num ((k : ℕ) : ℚ)) = num ((k : ℕ) : ℚ) := by
  show num ((Rat.floor (ratAdd ((k : ℕ) : ℚ) (Rat.divInt 1 2)) : ℤ) : ℚ) = _
  rw [ratAdd_eq, divInt_half_eq, ratFloor_eq_intFloor]
  have : ⌊((k : ℕ) : ℚ) + 1 / 2⌋ = (k : ℤ) := by
    rw [Int.floor_eq_iff]
    constructor
    · push_cast
      linarith
    · push_cast
      linarith
  rw [this]
  norm_num

theorem str_empty_append (s : String) : "" ++ s = s := by
  obtain ⟨l⟩ := s
  rfl

theorem str_append_empty (s : String) : s ++ "" = s := by
  obtain ⟨l⟩ := s
  exact congrArg String.mk (List.append_nil l)

theorem jsToHexString_natCast (k : ℕ) : jsToHexString (num ((k : ℕ) : ℚ)) = natHexLower k := by
  have h0 : ¬(((k : ℕ) : ℚ) < 0) := not_lt.mpr (by positivity)
  have habs : ratAbs ((k : ℕ) : ℚ) = ((k : ℕ) : ℚ) := by
    rw [ratAbs_eq]
    exact abs_of_nonneg (by positivity)
  simp only [jsToHexString, habs]
  have hfl : Rat.floor (((k : ℕ) : ℚ)) = (k : ℤ) := by
    rw [ratFloor_eq_intFloor]
    exact_mod_cast Int.floor_natCast k
  rw [hfl]
  have hsub : ratSub (((k : ℕ) : ℚ)) (((k : ℤ) : ℚ)) = 0 := by
    rw [ratSub_eq]
    push_cast
    ring
  rw [hsub]
  have hfr : hexFracAux 20 0 = [] := rfl
  rw [hfr]
  rw [if_neg h0]
  simp only [List.isEmpty, Int.toNat_natCast, if_true]
  rw [str_empty_append, str_append_empty]

theorem natHexDigitsAux_zero (fuel : Nat) : natHexDigitsAux fuel 0 = [] := by
  cases fuel <;> rfl

theorem natHexDigitsAux_succ (fuel n : Nat) :
    natHexDigitsAux (fuel + 1) n =
      if n = 0 then []
      else natHexDigitsAux fuel (n / 16) ++
        [Char.ofNat (if n % 16 < 10 then 48 + n % 16 else 87 + n % 16)] := rfl

theorem natHexLower_small (k : Nat) (h1 : 0 < k) (h2 : k < 16) :
    natHexLower k = String.mk [lowHexDigit k] := by
  unfold natHexLower
  rw [if_neg (by omega)]
  obtain ⟨m, rfl⟩ : ∃ m, k = m + 1 := ⟨k - 1, by omega⟩
  rw [natHexDigitsAux_succ, if_neg (by omega), Nat.div_eq_of_lt h2,
    natHexDigitsAux_zero, Nat.mod_eq_of_lt h2]
  rfl

theorem natHexLower_two (k : Nat) (h1 : 16 ≤ k) (h2 : k < 256) :
    natHexLower k = String.mk [lowHexDigit (k / 16), lowHexDigit (k % 16)] := by
  unfold natHexLower
  rw [if_neg (by omega)]
  obtain ⟨m, rfl⟩ : ∃ m, k = m + 1 := ⟨k - 1, by omega⟩
  rw [natHexDigitsAux_succ, if_neg (by omega)]
  have hd1 : 0 < (m + 1) / 16 := Nat.div_pos h1 (by norm_num)
  have hd2 : (m + 1) / 16 < 16 := Nat.div_lt_of_lt_mul (by omega)
  rw [natHexDigitsAux_succ, if_neg (by omega)]
  rw [Nat.div_div_eq_div_mul]
  rw [Nat.div_eq_of_lt (by omega), natHexDigitsAux_zero, Nat.mod_eq_of_lt hd2]
  rfl

theorem padStart2_one (c : Char) : padStart2 (String.mk [c]) = String.mk ['0', c] := rfl

theorem padStart2_two (c d : Char) : padStart2 (String.mk [c, d]) = String.mk [c, d] := rfl

theorem strUpper_append (s t : String) : strUpper (s ++ t) = strUpper s ++ strUpper t := by
  obtain ⟨a⟩ := s
  obtain ⟨b⟩ := t
  show String.mk (List.map Char.toUpper (a ++ b)) = String.mk (List.map Char.toUpper a ++ List.map Char.toUpper b)
  rw [List.map_append]

/-- Byte-level round trip: encoding the value of a pair of uppercase hex
digits through `toString(16).padStart(2,"0")` + `toUpperCase` reproduces
the pair. -/
theorem encodeByte (c1 c2 : Char) (h1 : isUpperHexDigit c1 = true)
    (h2 : isUpperHexDigit c2 = true) :
    strUpper (padStart2 (jsToHexString (num ((16 * hexVal c1 + hexVal c2 : ℕ) : ℚ)))) =
      String.mk [c1, c2] := by
  have hv1 : hexVal c1 < 16 := hexVal_lt_16_of_upper c1 h1
  have hv2 : hexVal c2 < 16 := hexVal_lt_16_of_upper c2 h2
  have hu1 : upHexDigit (hexVal c1) = c1 := upHexDigit_hexVal c1 h1
  have hu2 : upHexDigit (hexVal c2) = c2 := upHexDigit_hexVal c2 h2
  rw [jsToHexString_natCast]
  by_cases hz : hexVal c1 = 0
  · have hc1 : c1 = '0' := by
      rw [← hu1, hz]
      decide
    by_cases hz2 : hexVal c2 = 0
    · have hc2 : c2 = '0' := by
        rw [← hu2, hz2]
        decide
      rw [hc1, hc2]
      decide
    · have hk : 16 * hexVal c1 + hexVal c2 = hexVal c2 := by omega
      rw [hk, natHexLower_small _ (by omega) hv2, padStart2_one]
      show String.mk [Char.toUpper '0', Char.toUpper (lowHexDigit (hexVal c2))] = _
      rw [toUpper_lowHexDigit _ hv2, hu2, hc1]
      rfl
  · have hk1 : (16 * hexVal c1 + hexVal c2) / 16 = hexVal c1 := by omega
    have hk2 : (16 * hexVal c1 + hexVal c2) % 16 = hexVal c2 := by omega
    rw [natHexLower_two _ (by omega) (by omega), hk1, hk2, padStart2_two]
    show String.mk [Char.toUpper (lowHexDigit (hexVal c1)), Char.toUpper (lowHexDigit (hexVal c2))] = _
    rw [toUpper_lowHexDigit _ hv1, toUpper_lowHexDigit _ hv2, hu1, hu2]

theorem list_len_succ {α : Type} {l : List α} {n : Nat} (h : l.length = n + 1) :
    ∃ a t, l = a :: t ∧ t.length = n := by
  cases l with
  | nil => simp at h
  | cons a t => exact ⟨a, t, rfl, by simpa using h⟩

/-- Every successful `parseHex` result is `#` followed by exactly eight
uppercase hex digits. -/
theorem parseHex_ok_shape {H N : String} (h : parseHex H = .ok N) :
    ∃ c1 c2 c3 c4 c5 c6 c7 c8 : Char,
      N = String.mk ['#', c1, c2, c3, c4, c5, c6, c7, c8] ∧
      isUpperHexDigit c1 = true ∧ isUpperHexDigit c2 = true ∧ isUpperHexDigit c3 = true ∧
      isUpperHexDigit c4 = true ∧ isUpperHexDigit c5 = true ∧ isUpperHexDigit c6 = true ∧
      isUpperHexDigit c7 = true ∧ isUpperHexDigit c8 = true := by
  by_cases ht : hexTest H = true
  · obtain ⟨rest, hd, hall, hlen⟩ := (hexTest_iff H).mp ht
    obtain ⟨l⟩ := H
    have hl : l = '#' :: rest := hd
    subst hl
    rcases hlen with h3 | h6 | h8
    · obtain ⟨a, t1, rfl, ht1⟩ := list_len_succ h3
      obtain ⟨b, t2, rfl, ht2⟩ := list_len_succ ht1
      obtain ⟨c, t3, rfl, ht3⟩ := list_len_succ ht2
      obtain rfl : t3 = [] := List.eq_nil_of_length_eq_zero ht3
      have hcomp : parseHex (String.mk ['#', a, b, c]) =
          .ok (String.mk (List.map Char.toUpper ['#', a, a, b, b, c, c, 'F', 'F'])) := by
        unfold parseHex
        rw [ht]
        rfl
      rw [hcomp] at h
      have hN := (Except.ok.inj h).symm
      refine ⟨a.toUpper, a.toUpper, b.toUpper, b.toUpper, c.toUpper, c.toUpper, 'F', 'F',
        by rw [hN]; rfl, ?_, ?_, ?_, ?_, ?_, ?_, by decide, by decide⟩
      · exact (toUpper_of_hexDigit a (hall a (by simp))).1
      · exact (toUpper_of_hexDigit a (hall a (by simp))).1
      · exact (toUpper_of_hexDigit b (hall b (by simp))).1
      · exact (toUpper_of_hexDigit b (hall b (by simp))).1
      · exact (toUpper_of_hexDigit c (hall c (by simp))).1
      · exact (toUpper_of_hexDigit c (hall c (by simp))).1
    · obtain ⟨a, t1, rfl, ht1⟩ := list_len_succ h6
      obtain ⟨b, t2, rfl, ht2⟩ := list_len_succ ht1
      obtain ⟨c, t3, rfl, ht3⟩ := list_len_succ ht2
      obtain ⟨d, t4, rfl, ht4⟩ := list_len_succ ht3
      obtain ⟨e, t5, rfl, ht5⟩ := list_len_succ ht4
      obtain ⟨f, t6, rfl, ht6⟩ := list_len_succ ht5
      obtain rfl : t6 = [] := List.eq_nil_of_length_eq_zero ht6
      have hcomp : parseHex (String.mk ['#', a, b, c, d, e, f]) =
          .ok (String.mk (List.map Char.toUpper ['#', a, b, c, d, e, f, 'F', 'F'])) := by
        unfold parseHex
        rw [ht]
        rfl
      rw [hcomp] at h
      have hN := (Except.ok.inj h).symm
      refine ⟨a.toUpper, b.toUpper, c.toUpper, d.toUpper, e.toUpper, f.toUpper, 'F', 'F',
        by rw [hN]; rfl, ?_, ?_, ?_, ?_, ?_, ?_, by decide, by decide⟩
      · exact (toUpper_of_hexDigit a (hall a (by simp))).1
      · exact (toUpper_of_hexDigit b (hall b (by simp))).1
      · exact (toUpper_of_hexDigit c (hall c (by simp))).1
      · exact (toUpper_of_hexDigit d (hall d (by simp))).1
      · exact (toUpper_of_hexDigit e (hall e (by simp))).1
      · exact (toUpper_of_hexDigit f (hall f (by simp))).1
    · obtain ⟨a, t1, rfl, ht1⟩ := list_len_succ h8
      obtain ⟨b, t2, rfl, ht2⟩ := list_len_succ ht1
      obtain ⟨c, t3, rfl, ht3⟩ := list_len_succ ht2
      obtain ⟨d, t4, rfl, ht4⟩ := list_len_succ ht3
      obtain ⟨e, t5, rfl, ht5⟩ := list_len_succ ht4
      obtain ⟨f, t6, rfl, ht6⟩ := list_len_succ ht5
      obtain ⟨g, t7, rfl, ht7⟩ := list_len_succ ht6
      obtain ⟨i, t8, rfl, ht8⟩ := list_len_succ ht7
      obtain rfl : t8 = [] := List.eq_nil_of_length_eq_zero ht8
      have hcomp : parseHex (String.mk ['#', a, b, c, d, e, f, g, i]) =
          .ok (String.mk (List.map Char.toUpper ['#', a, b, c, d, e, f, g, i])) := by
        unfold parseHex
        rw [ht]
        rfl
      rw [hcomp] at h
      have hN := (Except.ok.inj h).symm
      refine ⟨a.toUpper, b.toUpper, c.toUpper, d.toUpper, e.toUpper, f.toUpper,
        g.toUpper, i.toUpper, by rw [hN]; rfl, ?_, ?_, ?_, ?_, ?_, ?_, ?_, ?_⟩
      · exact (toUpper_of_hexDigit a (hall a (by simp))).1
      · exact (toUpper_of_hexDigit b (hall b (by simp))).1
      · exact (toUpper_of_hexDigit c (hall c (by simp))).1
      · exact (toUpper_of_hexDigit d (hall d (by simp))).1
      · exact (toUpper_of_hexDigit e (hall e (by simp))).1
      · exact (toUpper_of_hexDigit f (hall f (by simp))).1
      · exact (toUpper_of_hexDigit g (hall g (by simp))).1
      · exact (toUpper_of_hexDigit i (hall i (by simp))).1
  · have hf : hexTest H = false := by simpa using ht
    unfold parseHex at h
    rw [hf] at h
    exact Except.noConfusion h

theorem jsDiv_natCast_255 (ab : ℕ) :
    jsDiv (num ((ab : ℕ) : ℚ)) (num 255) = num (((ab : ℕ) : ℚ) / 255) := by
  simp only [jsDiv]
  rw [if_neg (by norm_num), ratDiv_eq _ _ (by norm_num)]

theorem floor_half_eq_zero : ⌊(1 / 2 : ℚ)⌋ = 0 := by
  rw [Int.floor_eq_iff]
  constructor <;> norm_num

/-- Decoding an alpha byte and rounding to 2 decimals yields `m/100` for
some integer `0 ≤ m ≤ 100`. -/
theorem alpha_decode_form (ab : ℕ) (hab : ab ≤ 255) :
    ∃ m : ℤ, 0 ≤ m ∧ m ≤ 100 ∧
      round (jsDiv (num ((ab : ℕ) : ℚ)) (num 255)) 2 = num (((m : ℤ) : ℚ) / 100) := by
  refine ⟨⌊((ab : ℕ) : ℚ) / 255 * 10 ^ 2 + 1 / 2⌋, ?_, ?_, ?_⟩
  · exact Int.floor_nonneg.mpr (by positivity)
  · have h1 : ((ab : ℕ) : ℚ) / 255 ≤ 1 := by
      rw [div_le_one (by norm_num)]
      exact_mod_cast hab
    have h2 : ((ab : ℕ) : ℚ) / 255 * 10 ^ 2 + 1 / 2 ≤ 201 / 2 := by
      have := mul_le_mul_of_nonneg_right h1 (by norm_num : (0 : ℚ) ≤ 10 ^ 2)
      linarith
    have h3 : ⌊(201 / 2 : ℚ)⌋ = 100 := by
      rw [Int.floor_eq_iff]
      constructor <;> norm_num
    calc ⌊((ab : ℕ) : ℚ) / 255 * 10 ^ 2 + 1 / 2⌋ ≤ ⌊(201 / 2 : ℚ)⌋ := Int.floor_le_floor h2
      _ = 100 := h3
  · rw [jsDiv_natCast_255, round_num_eq]
    norm_num

/-- `round(·, 2)` is the identity on values of the form `m/100`. -/
theorem round2_form_idem (m : ℤ) :
    round (num (((m : ℤ) : ℚ) / 100)) 2 = num (((m : ℤ) : ℚ) / 100) := by
  rw [round_num_eq]
  have h1 : ((m : ℤ) : ℚ) / 100 * 10 ^ 2 + 1 / 2 = ((m : ℤ) : ℚ) + 1 / 2 := by
    rw [show ((10 : ℚ)) ^ 2 = 100 by norm_num, div_mul_cancel₀ _ (by norm_num : (100 : ℚ) ≠ 0)]
  rw [h1]
  have h2 : ⌊((m : ℤ) : ℚ) + 1 / 2⌋ = m := by
    rw [add_comm, Int.floor_add_int, floor_half_eq_zero, zero_add]
  rw [h2]
  norm_num

theorem badChannel_natCast (k : ℕ) (hk : k ≤ 255) :
    badChannel (num ((k : ℕ) : ℚ)) = false := by
  have h2 : jsLtB (num ((k : ℕ) : ℚ)) (num 0) = false := by
    simp only [jsLtB, decide_eq_false_iff_not, not_lt]
    positivity
  have h3 : jsGtB (num ((k : ℕ) : ℚ)) (num 255) = false := by
    simp only [jsGtB, jsLtB, decide_eq_false_iff_not, not_lt]
    exact_mod_cast hk
  simp [badChannel, jsIsNaN, h2, h3]

theorem alphaOutOfRange_form (m : ℤ) (h0 : 0 ≤ m) (h1 : m ≤ 100) :
    alphaOutOfRange (some (num (((m : ℤ) : ℚ) / 100))) = false := by
  have h2 : jsLtB (num (((m : ℤ) : ℚ) / 100)) (num 0) = false := by
    simp only [jsLtB, decide_eq_false_iff_not, not_lt]
    apply div_nonneg _ (by norm_num)
    exact_mod_cast h0
  have h3 : jsGtB (num (((m : ℤ) : ℚ) / 100)) (num 1) = false := by
    simp only [jsGtB, jsLtB, decide_eq_false_iff_not, not_lt]
    rw [div_le_one (by norm_num)]
    exact_mod_cast h1
  simp [alphaOutOfRange, jsIsNaN, h2, h3]

/-- C1 counterexample: `"#00000001"` is accepted and normalized to itself,
`hexToRgb` quantizes its alpha byte `01` to `0.00`, and re-encoding yields
`"#00000000"` — the round trip does not reproduce `parseHex(H)`. -/
theorem C1_hex_roundtrip_counterexample :
    parseHex ("#00000001") = .ok ("#00000001") ∧
    hexToRgb ("#00000001") = .ok ⟨num 0, num 0, num 0, num 0⟩ ∧
    rgbToHex (num 0) (num 0) (num 0) (some (num 0)) = .ok ("#00000000") ∧
    ("#00000000" : String) ≠ "#00000001" :=
  ⟨by decide, by decide, by decide, by decide⟩

/-- C1 as amended: for every hex string `H` accepted by `parseHex`, the
`hexToRgb` result re-encoded by `rgbToHex` reproduces the normalized
string `parseHex(H)` exactly when the alpha byte survives the 2-decimal
quantization, i.e. when `Math.round(alpha*255)` recovers the decoded alpha
byte (this holds in particular for every 3- and 6-digit input, whose alpha
byte is `FF`). -/
theorem C1_hex_roundtrip_amended (H N : String) (rgb : RGBA)
    (hp : parseHex H = .ok N) (hr : hexToRgb H = .ok rgb)
    (halpha : jsRound (jsMul rgb.alpha (num 255)) =
      parseInt16 (jsCharStr N 7 ++ jsCharStr N 8)) :
    rgbToHex rgb.red rgb.green rgb.blue (some rgb.alpha) = .ok N := by
  obtain ⟨N2, hp2, hdec⟩ := hexToRgb_ok_elim hr
  rw [hp] at hp2
  obtain rfl := Except.ok.inj hp2
  obtain ⟨c1, c2, c3, c4, c5, c6, c7, c8, hN, hu1, hu2, hu3, hu4, hu5, hu6, hu7, hu8⟩ :=
    parseHex_ok_shape hp
  subst hN
  have hh1 := isHexDigitChar_of_upper c1 hu1
  have hh2 := isHexDigitChar_of_upper c2 hu2
  have hh3 := isHexDigitChar_of_upper c3 hu3
  have hh4 := isHexDigitChar_of_upper c4 hu4
  have hh5 := isHexDigitChar_of_upper c5 hu5
  have hh6 := isHexDigitChar_of_upper c6 hu6
  have hh7 := isHexDigitChar_of_upper c7 hu7
  have hh8 := isHexDigitChar_of_upper c8 hu8
  have hv1 := hexVal_lt_16_of_upper c1 hu1
  have hv2 := hexVal_lt_16_of_upper c2 hu2
  have hv3 := hexVal_lt_16_of_upper c3 hu3
  have hv4 := hexVal_lt_16_of_upper c4 hu4
  have hv5 := hexVal_lt_16_of_upper c5 hu5
  have hv6 := hexVal_lt_16_of_upper c6 hu6
  have hv7 := hexVal_lt_16_of_upper c7 hu7
  have hv8 := hexVal_lt_16_of_upper c8 hu8
  have hred : rgb.red = num ((16 * hexVal c1 + hexVal c2 : ℕ) : ℚ) := by
    rw [hdec]
    exact parseInt16_pair c1 c2 hh1 hh2
  have hgreen : rgb.green = num ((16 * hexVal c3 + hexVal c4 : ℕ) : ℚ) := by
    rw [hdec]
    exact parseInt16_pair c3 c4 hh3 hh4
  have hblue : rgb.blue = num ((16 * hexVal c5 + hexVal c6 : ℕ) : ℚ) := by
    rw [hdec]
    exact parseInt16_pair c5 c6 hh5 hh6
  have halC : rgb.alpha =
      round (jsDiv (num ((16 * hexVal c7 + hexVal c8 : ℕ) : ℚ)) (num 255)) 2 := by
    rw [hdec]
    show round (jsDiv (parseInt16 (String.mk [c7] ++ String.mk [c8])) (num 255)) 2 = _
    rw [parseInt16_pair c7 c8 hh7 hh8]
  obtain ⟨m, hm0, hm1, hform⟩ := alpha_decode_form (16 * hexVal c7 + hexVal c8) (by omega)
  have halm : rgb.alpha = num (((m : ℤ) : ℚ) / 100) := halC.trans hform
  have hc : (badChannel rgb.red || badChannel rgb.green || badChannel rgb.blue) = false := by
    rw [hred, hgreen, hblue]
    rw [badChannel_natCast _ (by omega), badChannel_natCast _ (by omega),
      badChannel_natCast _ (by omega)]
    rfl
  have ha : (jsTruthyOpt (some rgb.alpha) && alphaOutOfRange (some rgb.alpha)) = false := by
    rw [halm, alphaOutOfRange_form m hm0 hm1, Bool.and_false]
  have hval : validateRgb rgb.red rgb.green rgb.blue (some rgb.alpha) =
      .ok ⟨rgb.red, rgb.green, rgb.blue, rgb.alpha⟩ := by
    simp only [validateRgb, hc, ha, Bool.false_eq_true, if_false]
    simp only [Except.ok.injEq, RGBA.mk.injEq]
    refine ⟨?_, ?_, ?_, ?_⟩
    · rw [hred]
      exact jsRound_natCast _
    · rw [hgreen]
      exact jsRound_natCast _
    · rw [hblue]
      exact jsRound_natCast _
    · show round rgb.alpha 2 = rgb.alpha
      rw [halm]
      exact round2_form_idem m
  have halphaV : jsRound (jsMul rgb.alpha (num 255)) =
      num ((16 * hexVal c7 + hexVal c8 : ℕ) : ℚ) := by
    rw [halpha]
    show parseInt16 (String.mk [c7] ++ String.mk [c8]) = _
    exact parseInt16_pair c7 c8 hh7 hh8
  have hcore : rgbToHexCore ⟨rgb.red, rgb.green, rgb.blue, rgb.alpha⟩ =
      String.mk ['#', c1, c2, c3, c4, c5, c6, c7, c8] := by
    show ("#") ++ strUpper (padStart2 (jsToHexString rgb.red) ++ padStart2 (jsToHexString rgb.green) ++
      padStart2 (jsToHexString rgb.blue) ++
      padStart2 (jsToHexString (jsRound (jsMul rgb.alpha (num 255))))) = _
    rw [halphaV, hred, hgreen, hblue]
    rw [strUpper_append, strUpper_append, strUpper_append]
    rw [encodeByte c1 c2 hu1 hu2, encodeByte c3 c4 hu3 hu4, encodeByte c5 c6 hu5 hu6,
      encodeByte c7 c8 hu7 hu8]
    rfl
  unfold rgbToHex
  rw [hval]
  show Except.ok (rgbToHexCore ⟨rgb.red, rgb.green, rgb.blue, rgb.alpha⟩) = _
  rw [hcore]

/-- C1 witness: the amended round trip at `"#FFFFFF"`. -/
theorem C1_hex_roundtrip_witness :
    rgbToHex (num 255) (num 255) (num 255) (some (num 1)) = .ok ("#FFFFFFFF") :=
  C1_hex_roundtrip_amended ("#FFFFFF") ("#FFFFFFFF") ⟨num 255, num 255, num 255, num 1⟩
    (by decide) (by decide) (by decide)

example : round (num (Rat.divInt 1 255)) 2 = num 0 := by decide
example : round (num (Rat.divInt 17 255)) 2 = num (Rat.divInt 7 100) := by decide
example : jsDiv (num 1) (num 0) = JSNum.inf := by decide
example : round JSNum.inf 2 = JSNum.inf := by decide
example : defaultAlpha (some JSNum.nan) = JSNum.nan := by decide

end ColorLib
